import Mathlib

/-!
Verification development for the Heart_Shield medical-document OCR pipeline
(`ocr/utils/data_validator.py`, `ocr/utils/document_classifier.py`,
`ocr/parsers/*.py`, `ocr/universal_reader.py`).

The Python code is shallowly embedded: Python dicts become association lists
with Python insertion-order update semantics, Python values become the
`PyValue` inductive, exceptions become `Except`/`Option` results, and the
external regex engine (the `re` module applied to the OCR transcript) is
modelled either concretely (for the simple patterns of the fallback parser
and the classifier's word-boundary keyword search) or as an oracle giving
the leftmost-match capture groups of each (field, pattern-index) pair (for
the lab-report, clinic-notes and discharge parsers).  Logging calls are
side-effect free and are omitted.
-/

namespace HeartShield

/-- A Python runtime value as it appears in the pipeline's dicts:
integers, strings, booleans, floats (exact rationals: the only float in the
system is the `oldpeak` default `1.0`), and `None`. -/
inductive PyValue where
  | vInt  : Int → PyValue
  | vStr  : String → PyValue
  | vBool : Bool → PyValue
  | vFloat : Rat → PyValue
  | vNone : PyValue
deriving DecidableEq, Repr

open PyValue

/-- Python truthiness for the value shapes that occur in the pipeline:
`0`, `""`, `False`, `0.0` and `None` are falsy. -/
def pyTruthy : PyValue → Bool
  | vInt n => n != 0
  | vStr s => s != ""
  | vBool b => b
  | vFloat q => q != 0
  | vNone => false

/-- A Python dict with string keys, as an insertion-ordered association
list with unique keys (assignment updates an existing key in place,
otherwise appends). -/
abbrev Dict := List (String × PyValue)

/-- `d[k] = v` with Python dict semantics: update in place if the key is
present, else append at the end. -/
def insertD : Dict → String → PyValue → Dict
  | [], k, v => [(k, v)]
  | (k', v') :: rest, k, v =>
      if k' = k then (k, v) :: rest else (k', v') :: insertD rest k v

/-- `d.get(k)` / `k in d` lookup: first binding of the key. -/
def lookupD : Dict → String → Option PyValue
  | [], _ => none
  | (k', v') :: rest, k => if k' = k then some v' else lookupD rest k

/-- Python `k in d`. -/
def containsD (d : Dict) (k : String) : Bool :=
  (lookupD d k).isSome

/-- Removing a key (used only to express "as if the key were absent"). -/
def eraseD (d : Dict) (k : String) : Dict :=
  d.filter (fun kv => kv.1 ≠ k)

/-- The decimal digit character for `r % 10` style arguments. -/
def digitChar : Nat → Char
  | 0 => '0' | 1 => '1' | 2 => '2' | 3 => '3' | 4 => '4'
  | 5 => '5' | 6 => '6' | 7 => '7' | 8 => '8' | _ => '9'

/-- Fuel-driven decimal rendering of a natural number (list of digit
characters, most significant first).  Matches Python `str(n)` for `n ≥ 0`. -/
def natReprCore : Nat → Nat → List Char
  | 0, _ => []
  | fuel + 1, n =>
      if n < 10 then [digitChar n]
      else natReprCore fuel (n / 10) ++ [digitChar (n % 10)]

/-- Python `str(n)` for a natural number. -/
def natRepr (n : Nat) : String := ⟨natReprCore (n + 1) n⟩

/-- Python `str(i)` for an integer. -/
def intRepr (i : Int) : String :=
  if i < 0 then "-" ++ natRepr i.natAbs else natRepr i.natAbs

/-- Python `str.isdigit()` restricted to ASCII: nonempty and all decimal
digits (the pipeline's strings come from `\d+` regex groups). -/
def strIsDigit (s : String) : Bool :=
  !s.data.isEmpty && s.data.all Char.isDigit

/-- Value of a list of decimal digit characters. -/
def natOfDigits : List Char → Nat :=
  List.foldl (fun a c => a * 10 + (c.toNat - 48)) 0

/-- Python `int(s)` on a digit-only string (the only strings the code
converts are guarded by `isdigit`), defaulting to 0 elsewhere. -/
def strToNatD (s : String) : Nat := natOfDigits s.data

/-- Python regex `\s` (ASCII part) and `str.strip()`'s whitespace. -/
def isSpaceCh (c : Char) : Bool :=
  c = ' ' || c = '\t' || c = '\n' || c = '\r' || c = Char.ofNat 11 || c = Char.ofNat 12

/-- Strip leading and trailing whitespace from a character list. -/
def charTrim (cs : List Char) : List Char :=
  ((cs.dropWhile isSpaceCh).reverse.dropWhile isSpaceCh).reverse

/-- ASCII lower-casing of one character (Python `str.lower()` and the
effect of `re.IGNORECASE`; OCR transcripts and all pattern literals are
ASCII). -/
def charLowerAscii (c : Char) : Char :=
  if 'A' ≤ c ∧ c ≤ 'Z' then Char.ofNat (c.toNat + 32) else c

/-- Python `s.lower()` (ASCII). -/
def strLower (s : String) : String := ⟨s.data.map charLowerAscii⟩

/-- Core of Python `int(s)` on an already-stripped character list:
optional sign, then decimal digits. -/
def pyIntCore : List Char → Option Int
  | [] => none
  | c :: rest =>
      if c = '-' then
        if rest ≠ [] ∧ rest.all Char.isDigit then some (-(natOfDigits rest : Int)) else none
      else if c = '+' then
        if rest ≠ [] ∧ rest.all Char.isDigit then some ((natOfDigits rest : Int)) else none
      else if (c :: rest).all Char.isDigit then some ((natOfDigits (c :: rest) : Int))
      else none

/-- Python `int(s)` as a fallible conversion: optional surrounding spaces,
optional sign, then decimal digits.  Used by `_is_valid_bp`, whose
`try/except` turns a conversion error into `False`. -/
def pyIntOpt (s : String) : Option Int :=
  pyIntCore (charTrim s.data)

/-- Python `str(value)` for the shapes reaching `_clean_blood_pressure`
and the `isdigit` guards.  The float rendering is approximate (it always
contains `'.'`, like Python's, so it can never be a digit string and never
contains `'/'`), which is all the embedded code observes of it. -/
def pyStrOf : PyValue → String
  | vInt n => intRepr n
  | vStr s => s
  | vBool b => if b then "True" else "False"
  | vFloat q => intRepr q.num ++ "." ++ natRepr q.den
  | vNone => "None"

/-- Python `str(value).isdigit()`. -/
def pyIsDigit (v : PyValue) : Bool := strIsDigit (pyStrOf v)

/-- Python `int(value)` where the code has already checked
`str(value).isdigit()` (so the value is a nonnegative int or a digit
string); other shapes are unreachable behind that guard. -/
def pyToInt : PyValue → Int
  | vInt n => n
  | vStr s => (strToNatD s : Int)
  | vBool b => if b then 1 else 0
  | _ => 0

/-- Python `s.split('/')` at character level. -/
def splitSlashChars : List Char → List (List Char)
  | [] => [[]]
  | c :: cs =>
      if c = '/' then [] :: splitSlashChars cs
      else
        match splitSlashChars cs with
        | h :: t => (c :: h) :: t
        | [] => [[c]]

/-- Python `s.split('/')`. -/
def sSplitSlash (s : String) : List String :=
  (splitSlashChars s.data).map fun cs => ⟨cs⟩

/-- Python `'/' in s`. -/
def hasSlash (s : String) : Bool := s.data.contains '/'

/-! ## DataValidator (`ocr/utils/data_validator.py`) -/

/-- `DataValidator.critical_params`. -/
def critical_params : List String := ["age", "cholesterol", "blood_pressure"]

/-- `DataValidator.get_missing_critical`: a critical param is missing when
the key is absent or its value is falsy. -/
def get_missing_critical (d : Dict) : List String :=
  critical_params.filter fun p =>
    match lookupD d p with
    | none => true
    | some v => !pyTruthy v

/-- `DataValidator.assess_completeness`. -/
def assess_completeness (d : Dict) : String :=
  let missing := get_missing_critical d
  if missing = [] then "EXCELLENT"
  else if missing.length = 1 then "GOOD"
  else if missing.length ≤ 2 then "MINIMAL"
  else "POOR"

/-- `DataValidator._clean_blood_pressure`: stringify, require a `/`, split
into exactly two digit parts, check 70 ≤ systolic ≤ 250 and
40 ≤ diastolic ≤ 150, and return the re-rendered `f"{systolic}/{diastolic}"`. -/
def clean_blood_pressure (v : PyValue) : Option String :=
  if !pyTruthy v then none
  else
    let bp_str := pyStrOf v
    if hasSlash bp_str then
      match sSplitSlash bp_str with
      | [p0, p1] =>
          if strIsDigit p0 && strIsDigit p1 then
            let systolic := strToNatD p0
            let diastolic := strToNatD p1
            if 70 ≤ systolic ∧ systolic ≤ 250 ∧ 40 ≤ diastolic ∧ diastolic ≤ 150 then
              some (natRepr systolic ++ "/" ++ natRepr diastolic)
            else none
          else none
      | _ => none
    else none

/-- One iteration of the `_clean_extracted_data` loop: the cleaned value
stored for key `k` holding `v`, or `none` when the entry is dropped. -/
def cleanItem (k : String) (v : PyValue) : Option PyValue :=
  if pyTruthy v && v != vStr "None" && v != vStr "null" then
    if k = "age" ∧ pyIsDigit v then some (vInt (pyToInt v))
    else if k = "blood_pressure" then
      (clean_blood_pressure v).map vStr
    else if k ∈ ["cholesterol", "heart_rate", "glucose", "hdl", "ldl"] then
      if pyIsDigit v then some (vInt (pyToInt v)) else none
    else some v
  else none

/-- `DataValidator._clean_extracted_data`. -/
def clean_extracted_data (d : Dict) : Dict :=
  d.foldl (fun acc kv =>
    match cleanItem kv.1 kv.2 with
    | some w => insertD acc kv.1 w
    | none => acc) []

/-- `DataValidator._extract_risk_insights`.  Note the source's
`if age > 45: ... elif age > 60: ...` chain, in which the `> 60` branch is
unreachable.  Comparisons of a non-integer `age`/`cholesterol` against an
int raise `TypeError` in Python; parser outputs only ever store digit
strings there (cleaned to ints), so those shapes are modelled as
producing no insight. -/
def extract_risk_insights (d : Dict) : Dict :=
  let ins : Dict := []
  let ins :=
    match lookupD d "age" with
    | some (vInt a) =>
        if a > 45 then insertD ins "age_risk" (vStr "Increased risk due to age > 45")
        else if a > 60 then insertD ins "age_risk" (vStr "Higher risk due to age > 60")
        else ins
    | _ => ins
  let ins :=
    match lookupD d "cholesterol" with
    | some (vInt c) =>
        if c > 240 then insertD ins "cholesterol_risk" (vStr "High cholesterol level (>240)")
        else if c > 200 then insertD ins "cholesterol_risk" (vStr "Borderline high cholesterol (200-239)")
        else ins
    | _ => ins
  let ins :=
    match lookupD d "blood_pressure" with
    | some (vStr bp) =>
        if hasSlash bp then
          let systolic := strToNatD ((sSplitSlash bp).headD "")
          if systolic > 140 then insertD ins "bp_risk" (vStr "Elevated systolic blood pressure (>140)")
          else if systolic > 130 then insertD ins "bp_risk" (vStr "High-normal blood pressure (130-139)")
          else ins
        else ins
    | _ => ins
  if ins = [] then
    let available := (d.map Prod.fst).filter fun k => k ∉ ["document_type", "error"]
    if available ≠ [] then
      insertD ins "info" (vStr ("Data available for: " ++ String.intercalate ", " available))
    else ins
  else ins

/-- The validator's per-tier response.  The Python handlers build dicts
with tier-specific key names (`data`/`available_data`,
`missing_fields`/`missing_critical`, `risk_insights`/`identified_risks`);
the same payloads are carried here under one field each.  `missing_fields`
and `risk_insights` are absent from the POOR response in Python and are
empty here; `suggestion` is absent from the EXCELLENT response. -/
structure ValidationOutcome where
  status : String
  message : String
  data : Dict
  missing_fields : List String
  prediction_confidence : String
  risk_insights : Dict
  suggestion : Option String
deriving DecidableEq, Repr

/-- `DataValidator._handle_excellent_data`. -/
def handle_excellent_data (d : Dict) : ValidationOutcome :=
  { status := "READY_FOR_PREDICTION"
    message := "All critical data extracted successfully!"
    data := d
    prediction_confidence := "HIGH"
    missing_fields := []
    risk_insights := extract_risk_insights d
    suggestion := none }

/-- `DataValidator._handle_good_data` (`missing[0]` exists: this handler
runs only when exactly one critical field is missing). -/
def handle_good_data (d : Dict) : ValidationOutcome :=
  let missing := get_missing_critical d
  { status := "READY_WITH_WARNING"
    message := "We can provide prediction, but " ++ missing.headD "" ++ " is missing"
    data := d
    missing_fields := missing
    prediction_confidence := "MEDIUM"
    risk_insights := extract_risk_insights d
    suggestion := some "Prediction will use estimated values for missing fields" }

/-- `DataValidator._handle_minimal_data`. -/
def handle_minimal_data (d : Dict) : ValidationOutcome :=
  let missing := get_missing_critical d
  { status := "PARTIAL_INSIGHTS"
    message := "Insufficient for full prediction, but here are risk factors we identified:"
    data := d
    missing_fields := missing
    prediction_confidence := "LOW"
    risk_insights := extract_risk_insights d
    suggestion := some "Please provide lab reports with cholesterol and blood pressure for complete analysis" }

/-- `DataValidator._handle_poor_data`. -/
def handle_poor_data (d : Dict) : ValidationOutcome :=
  { status := "CANNOT_PROCESS"
    message := "We could not extract sufficient medical data from this document"
    data := d
    missing_fields := []
    prediction_confidence := "NONE"
    risk_insights := []
    suggestion := some "Try uploading lab reports, discharge summaries, or clinic notes with clear medical values" }

/-- `DataValidator.validate_and_prepare_prediction`. -/
def validate_and_prepare_prediction (extracted : Dict) : ValidationOutcome :=
  let cleaned := clean_extracted_data extracted
  let completeness := assess_completeness cleaned
  if completeness = "EXCELLENT" then handle_excellent_data cleaned
  else if completeness = "GOOD" then handle_good_data cleaned
  else if completeness = "MINIMAL" then handle_minimal_data cleaned
  else handle_poor_data cleaned

/-- The OCR-to-ML direct field renames of `prepare_for_ml_model`, in the
source's dict order. -/
def mlMapping : List (String × String) :=
  [("age", "age"), ("cholesterol", "chol"), ("heart_rate", "thalach"), ("glucose", "fbs")]

/-- The fixed defaults of `prepare_for_ml_model`, in the source's dict
order. -/
def mlDefaults : List (String × PyValue) :=
  [("sex", vInt 1), ("cp", vInt 0), ("restecg", vInt 0), ("exang", vInt 0),
   ("oldpeak", vFloat 1), ("slope", vInt 1), ("ca", vInt 0), ("thal", vInt 3)]

/-- Python `x > 120` for the value found in `ml_input['fbs']` (an int from
the cleaned data; a non-numeric shape would raise `TypeError` in Python
and is unreachable from validator output). -/
def pyGt120 : PyValue → Bool
  | vInt n => n > 120
  | vFloat q => q > 120
  | _ => false

/-- One iteration of the `prepare_for_ml_model` mapping loop: copy the
source field into the ML slot when the key is present in the data. -/
def mlMapStep (data : Dict) (ml : Dict) (srcTgt : String × String) : Dict :=
  if containsD data srcTgt.1 then insertD ml srcTgt.2 ((lookupD data srcTgt.1).getD vNone)
  else ml

/-- The `if 'blood_pressure' in data:` block of `prepare_for_ml_model`:
split the BP string and store the systolic component as `trestbps`.
A non-string value would raise `AttributeError` on `.split` (unreachable
from validator output, whose cleaned BP is always a string). -/
def mlBpStep (data : Dict) (ml : Dict) : Dict :=
  match lookupD data "blood_pressure" with
  | some (vStr bp) =>
      match sSplitSlash bp with
      | [p0, _] => insertD ml "trestbps" (vInt (strToNatD p0))
      | _ => ml
  | some _ => ml
  | none => ml

/-- One iteration of the defaults loop: apply a default only when the
slot is missing. -/
def mlDefaultStep (ml : Dict) (kv : String × PyValue) : Dict :=
  if !containsD ml kv.1 then insertD ml kv.1 kv.2 else ml

/-- The final fbs binarization of `prepare_for_ml_model`: performed after
the raw glucose value was placed in `ml_input['fbs']`. -/
def mlFbsStep (ml : Dict) : Dict :=
  match lookupD ml "fbs" with
  | some v => insertD ml "fbs" (vInt (if pyGt120 v then 1 else 0))
  | none => ml

/-- The body of `prepare_for_ml_model` after the status guard: mapping
loop, systolic extraction, defaults, then the in-place fbs binarization. -/
def buildMlInput (data : Dict) : Dict :=
  mlFbsStep (mlDefaults.foldl mlDefaultStep (mlBpStep data (mlMapping.foldl (mlMapStep data) [])))

/-- `DataValidator.prepare_for_ml_model`: `None` unless the validated
result's status is READY_FOR_PREDICTION. -/
def prepare_for_ml_model (validated : ValidationOutcome) : Option Dict :=
  if validated.status ≠ "READY_FOR_PREDICTION" then none
  else some (buildMlInput validated.data)

/-! ## DocumentClassifier (`ocr/utils/document_classifier.py`) -/

/-- Python regex `\w` (ASCII part, which is all the lower-cased transcript
and keyword phrases contain). -/
def wordChar (c : Char) : Bool := c.isAlphanum || c = '_'

/-- Whether `kw` occurs in `cs` starting at the current position, with a
word boundary on each side: `re.search(r'\b' + re.escape(kw) + r'\b', text)`
restricted to keywords that start and end with word characters (true of
every keyword phrase in the classifier's tables).  `prev` is the character
just before the current position. -/
def foundWordAux (kw : List Char) (prev : Option Char) : List Char → Bool
  | [] => false
  | c :: cs =>
      (kw.isPrefixOf (c :: cs)
        && (match prev with | none => true | some p => !wordChar p)
        && (match (c :: cs).drop kw.length with
            | [] => true
            | c' :: _ => !wordChar c'))
      || foundWordAux kw (some c) cs

/-- Whole-word/phrase occurrence of a keyword in a text. -/
def foundWord (kw : String) (text : String) : Bool :=
  kw.data ≠ [] && foundWordAux kw.data none text.data

/-- `DocumentClassifier._calculate_keyword_score`. -/
def calculate_keyword_score (text : String) (keywords : List String) : Nat :=
  (keywords.filter fun kw => foundWord kw text).length

/-- The classifier's keyword table, in the source's dict (declaration)
order: `lab_report`, `discharge_summary`, `clinic_notes`. -/
def document_keywords : List (String × List String) :=
  [("lab_report",
    ["laboratory", "lab report", "test results", "bun", "creatinine",
     "blood test", "chemistry", "cbc", "lipid profile", "glucose",
     "reference range", "normal range", "specimen"]),
   ("discharge_summary",
    ["discharge", "admission", "hospital course", "discharged",
     "admitted", "final diagnosis", "discharge medications",
     "follow up", "condition on discharge", "hospital stay"]),
   ("clinic_notes",
    ["clinic", "follow-up", "progress note", "assessment",
     "subjective", "objective", "plan", "soap", "chief complaint",
     "physical exam", "vital signs", "clinic visit"])]

/-- Python `max(scores, key=scores.get)` over an insertion-ordered dict:
the first key attaining the maximum value (a later key replaces the
current best only when strictly greater). -/
def pyMaxByValue : List (String × Nat) → String × Nat
  | [] => ("", 0)
  | x :: xs => xs.foldl (fun best kv => if kv.2 > best.2 then kv else best) x

/-- The classification of a transcript (the body of
`classify_document_type` after OCR): score each genre, take the best, and
fall back below the confidence floor of 2 keyword matches. -/
def classify_text (text : String) : String :=
  let text_lower := strLower text
  let scores := document_keywords.map fun g => (g.1, calculate_keyword_score text_lower g.2)
  let best := pyMaxByValue scores
  if best.2 ≥ 2 then best.1 else "fallback"

/-- `DocumentClassifier.classify_document_type`: the classifier's own
`_extract_text` returns `""` when OCR fails (and any other escaping error
is caught, also yielding `"fallback"`, which classifying `""` produces as
well). -/
def classify_document_type (ocr : Except String String) : String :=
  match ocr with
  | .ok t => classify_text t
  | .error _ => classify_text ""

/-- Modelled from the spec's classifier contract, for comparison with the
code: the genre with the highest whole-word keyword count wins, ties break
in the fixed order lab_report > discharge_summary > clinic_notes, and a
winning count below 2 forces `"fallback"`. -/
def classify_spec (text : String) : String :=
  let text_lower := strLower text
  let sl := calculate_keyword_score text_lower ((document_keywords.get! 0).2)
  let sd := calculate_keyword_score text_lower ((document_keywords.get! 1).2)
  let sc := calculate_keyword_score text_lower ((document_keywords.get! 2).2)
  let m := max sl (max sd sc)
  if m < 2 then "fallback"
  else if sl = m then "lab_report"
  else if sd = m then "discharge_summary"
  else "clinic_notes"

/-! ## Parsers (`ocr/parsers/*.py`)

The three pattern-heavy parsers are embedded over a regex oracle: for a
fixed transcript, `search field i` stands for
`re.search(patterns[field][i], text, re.IGNORECASE)` and returns the
capture groups of the leftmost match (or `none`).  The fallback parser's
four simple patterns are additionally implemented concretely below, so
its extraction is an executable function of the transcript itself. -/

/-- Capture groups of one regex match (`None` groups possible in
alternations). -/
abbrev Groups := List (Option String)

/-- The regex oracle for one parser on one transcript. -/
abbrev SearchOracle := String → Nat → Option Groups

/-- Value of a possibly-`None` group inside an f-string. -/
def optRepr : Option String → String
  | some s => s
  | none => "None"

/-- Python truthiness of a group (`None` and `""` falsy). -/
def optTruthy : Option String → Bool
  | some s => s ≠ ""
  | none => false

/-- `LabReportParser._is_valid_bp` (shared semantics with the fallback
parser's inline check): `int()` both parts inside `try/except`, then
70 ≤ systolic ≤ 250 and 40 ≤ diastolic ≤ 150.  `int(None)` raises, hence
`False`. -/
def is_valid_bp (g1 g2 : Option String) : Bool :=
  match g1, g2 with
  | some a, some b =>
      match pyIntOpt a, pyIntOpt b with
      | some x, some y => decide (70 ≤ x ∧ x ≤ 250 ∧ 40 ≤ y ∧ y ≤ 150)
      | _, _ => false
  | _, _ => false

/-- `LabReportParser._is_valid_medical_value`'s `validation_ranges`. -/
def validation_ranges : List (String × Nat × Nat) :=
  [("age", 1, 120), ("cholesterol", 100, 400), ("heart_rate", 40, 200),
   ("glucose", 50, 300), ("hdl", 20, 100), ("ldl", 50, 300)]

/-- The range test of `_is_valid_medical_value` for an already-converted
int (fields outside the table are unvalidated). -/
def rangeOk (field : String) (n : Int) : Bool :=
  match validation_ranges.find? (fun r => r.1 = field) with
  | some r => decide ((r.2.1 : Int) ≤ n ∧ n ≤ (r.2.2 : Int))
  | none => true

/-- `LabReportParser._is_valid_medical_value`: `int(value)` inside
`try/except` (failure yields `False`), then the range table. -/
def is_valid_medical_value (field : String) (value : String) : Bool :=
  match pyIntOpt value with
  | none => false
  | some n => rangeOk field n

/-- The numeric branch of `_extract_field_enhanced` applies to these
field names. -/
def labNumericFields : List String :=
  ["age", "cholesterol", "heart_rate", "glucose", "hdl", "ldl"]

/-- `LabReportParser._extract_field_enhanced`: try patterns in order; a
blood-pressure match is kept only when `_is_valid_bp` passes, a numeric
match only when the group is a digit string inside
`_is_valid_medical_value`'s range; a failed validation moves on to the
next pattern; any other field returns its first match's group
unconditionally. -/
def extract_field_enhanced (search : SearchOracle) (field : String) :
    List Nat → Option String
  | [] => none
  | i :: is =>
      match search field i with
      | none => extract_field_enhanced search field is
      | some groups =>
          if field = "blood_pressure" then
            let g1 := groups.getD 0 none
            let g2 := groups.getD 1 none
            if is_valid_bp g1 g2 then some (optRepr g1 ++ "/" ++ optRepr g2)
            else extract_field_enhanced search field is
          else if field ∈ labNumericFields then
            match groups.getD 0 none with
            | some value =>
                if value ≠ "" ∧ strIsDigit value then
                  if is_valid_medical_value field value then some value
                  else extract_field_enhanced search field is
                else extract_field_enhanced search field is
            | none => extract_field_enhanced search field is
          else
            groups.getD 0 none

/-- `LabReportParser._extract_casual_bp`: the first
`(\d{2,3})\s*/\s*(\d{2,3})` findall pair passing `_is_valid_bp`, formatted
from the group strings. -/
def extract_casual_bp (findallBp : List (String × String)) : Option String :=
  match findallBp.find? (fun p => is_valid_bp (some p.1) (some p.2)) with
  | some p => some (p.1 ++ "/" ++ p.2)
  | none => none

/-- `LabReportParser._aggressive_cholesterol_search`: four extra patterns
(oracle field `"chol_aggressive"`), accepting a digit group with
100 ≤ value ≤ 400.  Group 1 of each of those patterns always captures, so
a `none` group is unreachable and skipped. -/
def aggressive_cholesterol_search (search : SearchOracle) : List Nat → Option String
  | [] => none
  | i :: is =>
      match search "chol_aggressive" i with
      | none => aggressive_cholesterol_search search is
      | some groups =>
          match groups.getD 0 none with
          | some value =>
              if strIsDigit value ∧ 100 ≤ strToNatD value ∧ strToNatD value ≤ 400 then
                some value
              else aggressive_cholesterol_search search is
          | none => aggressive_cholesterol_search search is

/-- Store a field's extracted value under Python's `if value:` guard. -/
def storeTruthy (d : Dict) (k : String) : Option String → Dict
  | some s => if s ≠ "" then insertD d k (vStr s) else d
  | none => d

/-- The `if 'blood_pressure' not in extracted_data:` casual-BP fallback
block of `LabReportParser.extract_data`. -/
def labStepCasual (findallBp : List (String × String)) (d : Dict) : Dict :=
  if !containsD d "blood_pressure" then
    match extract_casual_bp findallBp with
    | some s => insertD d "blood_pressure" (vStr s)
    | none => d
  else d

/-- The `if 'cholesterol' not in extracted_data:` aggressive-search
fallback block of `LabReportParser.extract_data`. -/
def labStepAggressive (search : SearchOracle) (d : Dict) : Dict :=
  if !containsD d "cholesterol" then
    match aggressive_cholesterol_search search (List.range 4) with
    | some s => insertD d "cholesterol" (vStr s)
    | none => d
  else d

/-- The body of `LabReportParser.extract_data` after OCR: the
`medical_patterns` loop in dict order (age: 5 patterns, cholesterol: 18,
blood_pressure: 6, heart_rate: 6, glucose: 7, hdl: 4, ldl: 4), then the
casual-BP fallback, then the aggressive cholesterol fallback. -/
def lab_extract_from (search : SearchOracle) (findallBp : List (String × String)) : Dict :=
  labStepAggressive search (labStepCasual findallBp
    (storeTruthy
      (storeTruthy
        (storeTruthy
          (storeTruthy
            (storeTruthy
              (storeTruthy
                (storeTruthy [] "age" (extract_field_enhanced search "age" (List.range 5)))
                "cholesterol" (extract_field_enhanced search "cholesterol" (List.range 18)))
              "blood_pressure" (extract_field_enhanced search "blood_pressure" (List.range 6)))
            "heart_rate" (extract_field_enhanced search "heart_rate" (List.range 6)))
          "glucose" (extract_field_enhanced search "glucose" (List.range 7)))
        "hdl" (extract_field_enhanced search "hdl" (List.range 4)))
      "ldl" (extract_field_enhanced search "ldl" (List.range 4))))

/-- `LabReportParser._extract_text`: catches OCR failure and returns `""`
(lower-casing the transcript otherwise). -/
def lab_extract_text (ocr : Except String String) : String :=
  match ocr with
  | .ok t => strLower t
  | .error _ => ""

/-- `LabReportParser.extract_data`: `_extract_text` never raises, so the
surrounding `try/except` error dict is unreachable and the pattern body
always runs (on OCR failure it runs over the empty transcript, for which
the real regex oracle returns no matches). -/
def lab_extract_data (_ocr : Except String String) (search : SearchOracle)
    (findallBp : List (String × String)) : Dict :=
  lab_extract_from search findallBp

/-- `DocumentClassifier._extract_text`: catches OCR failure, returns the
raw (not lower-cased) transcript or `""`. -/
def classifier_extract_text (ocr : Except String String) : String :=
  match ocr with
  | .ok t => t
  | .error _ => ""

/-- `ClinicNotesParser._extract_text`: no `try/except` — an OCR failure
propagates to the caller. -/
def clinic_extract_text (ocr : Except String String) : Except String String :=
  match ocr with
  | .ok t => .ok (strLower t)
  | .error e => .error e

/-- `DischargeSummaryParser._extract_text`: no `try/except`. -/
def discharge_extract_text (ocr : Except String String) : Except String String :=
  match ocr with
  | .ok t => .ok (strLower t)
  | .error e => .error e

/-- `GeneralMedicalParser._extract_text`: no `try/except`. -/
def fallback_extract_text (ocr : Except String String) : Except String String :=
  match ocr with
  | .ok t => .ok (strLower t)
  | .error e => .error e

/-- `ClinicNotesParser._extract_field`: single pattern per field, no
range validation; blood pressure is formatted straight from the groups. -/
def clinic_extract_field (search : SearchOracle) (field : String) : Option String :=
  match search field 0 with
  | none => none
  | some groups =>
      if field = "blood_pressure" then
        some (optRepr (groups.getD 0 none) ++ "/" ++ optRepr (groups.getD 1 none))
      else groups.getD 0 none

/-- `ClinicNotesParser._extract_casual_bp` (pattern
`(\d+)\s*/\s*(\d+)`, oracle field `"casual_bp"`): validates against the
looser bounds 50 ≤ systolic ≤ 250 and 30 ≤ diastolic ≤ 150.  The group
strings of the real pattern are always digit runs, so failed `int()`
conversion is unreachable. -/
def clinic_casual_bp (search : SearchOracle) : Option String :=
  match search "casual_bp" 0 with
  | none => none
  | some groups =>
      match groups.getD 0 none, groups.getD 1 none with
      | some a, some b =>
          match pyIntOpt a, pyIntOpt b with
          | some systolic, some diastolic =>
              if 50 ≤ systolic ∧ systolic ≤ 250 ∧ 30 ≤ diastolic ∧ diastolic ≤ 150 then
                some (intRepr systolic ++ "/" ++ intRepr diastolic)
              else none
          | _, _ => none
      | _, _ => none

/-- The body of `ClinicNotesParser.extract_data` after OCR, in the
source's `clinic_patterns` order (age, blood_pressure, heart_rate,
symptoms, assessment), then the casual-BP fallback and the metadata keys
(`has_clinical_data` counts the dict after `document_type` was added). -/
def clinic_extract_from (search : SearchOracle) : Dict :=
  let d := ["age", "blood_pressure", "heart_rate", "symptoms", "assessment"].foldl
      (fun d f => storeTruthy d f (clinic_extract_field search f)) []
  let d :=
    if !containsD d "blood_pressure" then
      match clinic_casual_bp search with
      | some s => insertD d "blood_pressure" (vStr s)
      | none => d
    else d
  let d := insertD d "document_type" (vStr "clinic_notes")
  insertD d "has_clinical_data" (vBool (d.length > 1))

/-- `ClinicNotesParser.extract_data`: an OCR failure escapes
`_extract_text` and is caught by this method's `try/except`, producing
the error dict. -/
def clinic_extract_data (ocr : Except String String) (search : SearchOracle) : Dict :=
  match clinic_extract_text ocr with
  | .ok _ => clinic_extract_from search
  | .error e => [("error", vStr e), ("document_type", vStr "clinic_notes")]

/-- `DischargeSummaryParser._extract_field`: the blood-pressure pattern's
alternation has four groups (first truthy pair wins); `diagnosis` and
`medications` are stripped free text (`None.strip()` is unreachable:
those patterns' group 1 always captures). -/
def discharge_extract_field (search : SearchOracle) (field : String) : Option String :=
  match search field 0 with
  | none => none
  | some groups =>
      if field = "blood_pressure" then
        let g0 := groups.getD 0 none
        let g1 := groups.getD 1 none
        let g2 := groups.getD 2 none
        let g3 := groups.getD 3 none
        if optTruthy g0 ∧ optTruthy g1 then some (optRepr g0 ++ "/" ++ optRepr g1)
        else if optTruthy g2 ∧ optTruthy g3 then some (optRepr g2 ++ "/" ++ optRepr g3)
        else none
      else if field ∈ ["diagnosis", "medications"] then
        match groups with
        | [] => none
        | g :: _ => g.map String.trim
      else
        match groups with
        | [] => none
        | g :: _ => g

/-- The body of `DischargeSummaryParser.extract_data` after OCR, in the
source's `discharge_patterns` order, plus `document_type` and the first
200 characters of the transcript as `text_snippet`. -/
def discharge_extract_from (search : SearchOracle) (text : String) : Dict :=
  let d := ["age", "blood_pressure", "heart_rate", "cholesterol", "diagnosis", "medications"].foldl
      (fun d f => storeTruthy d f (discharge_extract_field search f)) []
  let d := insertD d "document_type" (vStr "discharge_summary")
  insertD d "text_snippet"
    (vStr (if text.length > 200 then text.take 200 ++ "..." else text))

/-- `DischargeSummaryParser.extract_data`. -/
def discharge_extract_data (ocr : Except String String) (search : SearchOracle) : Dict :=
  match discharge_extract_text ocr with
  | .ok t => discharge_extract_from search t
  | .error e => [("error", vStr e), ("document_type", vStr "discharge_summary")]

/-! ## Concrete regex matchers for the fallback parser's patterns

`GeneralMedicalParser`'s four used patterns are simple enough to embed
exactly: `age[\s:]*(\d+)`, `(\d+)/(\d+)`, `chol[\s:]*(\d+)`,
`(\d+)\s*bpm`, and the findall pattern `(\d{2,3})\s*/\s*(\d{2,3})` of
`_smart_bp_detection`.  For each of them, greedy matching without
backtracking coincides with Python's leftmost-match semantics: a
backtracked shorter `\d`-run always leaves a digit where the pattern next
requires a non-digit, so no shorter run can ever succeed where the
maximal run failed. -/

/-- The character class `[\s:]`. -/
def isSpaceColon (c : Char) : Bool := isSpaceCh c || c = ':'

/-- Case-insensitive literal match at the current position, returning the
rest of the text. -/
def matchLitCI : List Char → List Char → Option (List Char)
  | [], cs => some cs
  | _ :: _, [] => none
  | p :: ps, c :: cs => if charLowerAscii c = p then matchLitCI ps cs else none

/-- Leftmost match of `label[\s:]*(\d+)` (with `re.IGNORECASE`),
returning the digit group. -/
def labelNumAux (label : List Char) : List Char → Option String
  | [] => none
  | c :: cs =>
      match matchLitCI label (c :: cs) with
      | some rest =>
          let ds := (rest.dropWhile isSpaceColon).takeWhile Char.isDigit
          if ds ≠ [] then some ⟨ds⟩ else labelNumAux label cs
      | none => labelNumAux label cs

/-- `re.search(label + r'[\s:]*(\d+)', text, re.IGNORECASE)`. -/
def labelNumSearch (label : String) (text : String) : Option String :=
  labelNumAux label.data text.data

/-- Leftmost match of `(\d+)/(\d+)`, returning both digit groups. -/
def slashPairAux : List Char → Option (String × String)
  | [] => none
  | c :: cs =>
      (if c.isDigit then
        let d1 := (c :: cs).takeWhile Char.isDigit
        match (c :: cs).dropWhile Char.isDigit with
        | '/' :: r2 =>
            let d2 := r2.takeWhile Char.isDigit
            if d2 ≠ [] then some (⟨d1⟩, ⟨d2⟩) else none
        | _ => none
      else none).orElse fun _ => slashPairAux cs

/-- `re.search(r'(\d+)/(\d+)', text, re.IGNORECASE)`. -/
def slashPairSearch (text : String) : Option (String × String) :=
  slashPairAux text.data

/-- Leftmost match of `(\d+)\s*bpm` (with `re.IGNORECASE`), returning the
digit group. -/
def digitsBpmAux : List Char → Option String
  | [] => none
  | c :: cs =>
      (if c.isDigit then
        let ds := (c :: cs).takeWhile Char.isDigit
        let r := ((c :: cs).dropWhile Char.isDigit).dropWhile isSpaceCh
        match matchLitCI ['b', 'p', 'm'] r with
        | some _ => some (⟨ds⟩ : String)
        | none => none
      else none).orElse fun _ => digitsBpmAux cs

/-- `re.search(r'(\d+)\s*bpm', text, re.IGNORECASE)`. -/
def digitsBpmSearch (text : String) : Option String :=
  digitsBpmAux text.data

/-- One attempted match of `(\d{2,3})\s*/\s*(\d{2,3})` at the current
position: both groups and the rest of the text after the match. -/
def attemptD23 (cs : List Char) : Option (String × String × List Char) :=
  let run := cs.takeWhile Char.isDigit
  if run.length ≥ 2 then
    let g1 := run.take 3
    let r2 := (cs.drop g1.length).dropWhile isSpaceCh
    match r2 with
    | '/' :: r3 =>
        let r4 := r3.dropWhile isSpaceCh
        let run2 := r4.takeWhile Char.isDigit
        if run2.length ≥ 2 then
          let g2 := run2.take 3
          some (⟨g1⟩, ⟨g2⟩, r4.drop g2.length)
        else none
    | _ => none
  else none

/-- `re.findall(r'(\d{2,3})\s*/\s*(\d{2,3})', text)`: scan left to right,
resuming after each match (fuel bounds the scan; each step consumes at
least one character). -/
def findallD23Aux : Nat → List Char → List (String × String)
  | 0, _ => []
  | _, [] => []
  | fuel + 1, c :: cs =>
      match attemptD23 (c :: cs) with
      | some (g1, g2, rest) => (g1, g2) :: findallD23Aux fuel rest
      | none => findallD23Aux fuel cs

/-- `re.findall(r'(\d{2,3})\s*/\s*(\d{2,3})', text)`. -/
def findallD23 (text : String) : List (String × String) :=
  findallD23Aux (text.data.length + 1) text.data

/-! ## GeneralMedicalParser (`ocr/parsers/fallback_parser.py`) -/

/-- `GeneralMedicalParser._smart_bp_detection`: first findall pair in
70–250 / 40–150, formatted from the converted ints. -/
def smart_bp_detection (text : String) : Option String :=
  match (findallD23 text).find? fun p =>
      70 ≤ strToNatD p.1 ∧ strToNatD p.1 ≤ 250 ∧
      40 ≤ strToNatD p.2 ∧ strToNatD p.2 ≤ 150 with
  | some p => some (natRepr (strToNatD p.1) ++ "/" ++ natRepr (strToNatD p.2))
  | none => none

/-- `GeneralMedicalParser._extract_field` on the `(\d+)/(\d+)`
blood-pressure pattern: inline 70–250/40–150 validation, formatting the
converted ints. -/
def fallbackBpInline (text : String) (d : Dict) : Dict :=
  match slashPairSearch text with
  | some (a, b) =>
      if 70 ≤ strToNatD a ∧ strToNatD a ≤ 250 ∧ 40 ≤ strToNatD b ∧ strToNatD b ≤ 150 then
        insertD d "blood_pressure" (vStr (natRepr (strToNatD a) ++ "/" ++ natRepr (strToNatD b)))
      else d
  | none => d

/-- The `if 'blood_pressure' not in extracted_data:` smart-detection
block of `GeneralMedicalParser.extract_data`. -/
def fallbackSmartStep (text : String) (d : Dict) : Dict :=
  if !containsD d "blood_pressure" then
    match smart_bp_detection text with
    | some s => insertD d "blood_pressure" (vStr s)
    | none => d
  else d

/-- The body of `GeneralMedicalParser.extract_data` on a (lower-cased)
transcript: `general_patterns` in dict order (age, blood_pressure with
inline validation, cholesterol, heart_rate; `any_numbers` is skipped by
the loop), then smart BP detection and the metadata keys. -/
def fallback_extract_from_text (text : String) : Dict :=
  let d := storeTruthy [] "age" (labelNumSearch "age" text)
  let d := fallbackBpInline text d
  let d := storeTruthy d "cholesterol" (labelNumSearch "chol" text)
  let d := storeTruthy d "heart_rate" (digitsBpmSearch text)
  let d := fallbackSmartStep text d
  let d := insertD d "document_type" (vStr "general_medical")
  let d := insertD d "text_length" (vInt text.length)
  insertD d "parsing_confidence" (vStr "low")

/-- `GeneralMedicalParser.extract_data`: an OCR failure escapes
`_extract_text` and is caught here, producing the error dict. -/
def fallback_extract_data (ocr : Except String String) : Dict :=
  match fallback_extract_text ocr with
  | .ok t => fallback_extract_from_text t
  | .error e => [("error", vStr e), ("document_type", vStr "general_medical")]

/-! ## Orchestrator (`ocr/universal_reader.py`) -/

/-- The orchestrator's report: `status: success` with the pipeline
payloads, or `status: error` with the exception message and every other
field `None`. -/
structure Report where
  status : String
  message : Option String
  document_type : Option String
  extracted_data : Option Dict
  validation_result : Option ValidationOutcome
  prediction_result : Option Dict
deriving DecidableEq, Repr

/-- `self.parsers.get(doc_type, self.parsers['fallback'])` followed by
`extract_data`: dispatch by classified genre, defaulting to the fallback
parser for unknown genres.  `search`/`findallBp` model the regex engine
on the parser's transcript. -/
def dispatchByGenre (doc_type : String) (ocr : Except String String)
    (search : SearchOracle) (findallBp : List (String × String)) : Dict :=
  if doc_type = "lab_report" then lab_extract_data ocr search findallBp
  else if doc_type = "discharge_summary" then discharge_extract_data ocr search
  else if doc_type = "clinic_notes" then clinic_extract_data ocr search
  else fallback_extract_data ocr

/-- `UniversalMedicalReader.process_any_document`.

`exn` models an exception escaping a pipeline stage into the
orchestrator's outer `try/except` (lines 78–87): `some e` produces the
`status: error` report.  `clsOcr` and `parserOcr` are the outcomes of the
two OCR calls (the classifier and the chosen parser each run OCR on the
image); `predict` is the external `predictor.predict_risk`, whose own
failure is caught and surfaced as the explicit unavailable marker. -/
def process_any_document (exn : Option String)
    (clsOcr parserOcr : Except String String)
    (search : SearchOracle) (findallBp : List (String × String))
    (predict : Dict → Except String Dict) : Report :=
  match exn with
  | some e =>
      { status := "error", message := some e, document_type := none,
        extracted_data := none, validation_result := none, prediction_result := none }
  | none =>
      let doc_type := classify_document_type clsOcr
      let extracted := dispatchByGenre doc_type parserOcr search findallBp
      let validation := validate_and_prepare_prediction extracted
      let prediction : Option Dict :=
        if validation.status = "READY_FOR_PREDICTION" then
          match prepare_for_ml_model validation with
          | some ml =>
              if ml ≠ [] then
                match predict ml with
                | .ok p => some p
                | .error e => some [("error", vStr "Prediction unavailable"), ("message", vStr e)]
              else none
          | none => none
        else none
      { status := "success", message := none, document_type := some doc_type,
        extracted_data := some extracted, validation_result := some validation,
        prediction_result := prediction }

/-! ## Dictionary lemmas -/

theorem lookupD_insertD_self (d : Dict) (k : String) (v : PyValue) :
    lookupD (insertD d k v) k = some v := by
  induction d with
  | nil => simp [insertD, lookupD]
  | cons kv rest ih =>
      by_cases h : kv.1 = k
      · simp [insertD, lookupD, h]
      · simp [insertD, lookupD, h, ih]

theorem lookupD_insertD_ne (d : Dict) (k k' : String) (v : PyValue) (h : k' ≠ k) :
    lookupD (insertD d k v) k' = lookupD d k' := by
  have h' : k ≠ k' := Ne.symm h
  induction d with
  | nil => simp [insertD, lookupD, h']
  | cons kv rest ih =>
      by_cases hk : kv.1 = k
      · simp [insertD, lookupD, hk, h']
      · simp [insertD, lookupD, hk, ih]

theorem containsD_insertD_self (d : Dict) (k : String) (v : PyValue) :
    containsD (insertD d k v) k = true := by
  simp [containsD, lookupD_insertD_self]

theorem containsD_insertD_ne (d : Dict) (k k' : String) (v : PyValue) (h : k' ≠ k) :
    containsD (insertD d k v) k' = containsD d k' := by
  simp [containsD, lookupD_insertD_ne _ _ _ _ h]

theorem lookupD_eraseD_self (d : Dict) (k : String) :
    lookupD (eraseD d k) k = none := by
  induction d with
  | nil => simp [eraseD, lookupD]
  | cons kv rest ih =>
      by_cases h : kv.1 = k
      · simpa [eraseD, List.filter_cons, h, lookupD] using ih
      · simpa [eraseD, List.filter_cons, h, lookupD] using ih

theorem lookupD_eraseD_ne (d : Dict) (k k' : String) (h : k' ≠ k) :
    lookupD (eraseD d k) k' = lookupD d k' := by
  have h' : k ≠ k' := Ne.symm h
  induction d with
  | nil => simp [eraseD, lookupD]
  | cons kv rest ih =>
      by_cases hk : kv.1 = k
      · simpa [eraseD, List.filter_cons, hk, lookupD, h'] using ih
      · by_cases hk' : kv.1 = k'
        · simp [eraseD, List.filter_cons, hk, hk', lookupD, h]
        · simpa [eraseD, List.filter_cons, hk, hk', lookupD] using ih

theorem lookupD_mem (d : Dict) (k : String) (v : PyValue)
    (h : lookupD d k = some v) : (k, v) ∈ d := by
  induction d with
  | nil => simp [lookupD] at h
  | cons kv rest ih =>
      by_cases hk : kv.1 = k
      · rw [lookupD, if_pos hk] at h
        injection h with h
        have hkv : (k, v) = kv := by
          cases kv
          simp_all
        rw [hkv]
        exact List.mem_cons_self _ _
      · rw [lookupD, if_neg hk] at h
        exact List.mem_cons_of_mem _ (ih h)

theorem mem_insertD (d : Dict) (k : String) (v : PyValue) (kv : String × PyValue)
    (h : kv ∈ insertD d k v) : kv = (k, v) ∨ kv ∈ d := by
  induction d with
  | nil => simpa [insertD] using h
  | cons kv' rest ih =>
      by_cases hk : kv'.1 = k
      · rw [insertD, if_pos hk] at h
        rcases List.mem_cons.mp h with h | h
        · exact Or.inl h
        · exact Or.inr (List.mem_cons_of_mem _ h)
      · rw [insertD, if_neg hk] at h
        rcases List.mem_cons.mp h with h | h
        · exact Or.inr (List.mem_cons.mpr (Or.inl h))
        · rcases ih h with h | h
          · exact Or.inl h
          · exact Or.inr (List.mem_cons.mpr (Or.inr h))

theorem mem_storeTruthy (d : Dict) (k : String) (o : Option String)
    (kv : String × PyValue) (h : kv ∈ storeTruthy d k o) :
    kv ∈ d ∨ ∃ s, o = some s ∧ s ≠ "" ∧ kv = (k, vStr s) := by
  cases o with
  | none => exact Or.inl h
  | some s =>
      by_cases hs : s = ""
      · rw [storeTruthy, if_neg (by simp [hs])] at h
        exact Or.inl h
      · rw [storeTruthy, if_pos hs] at h
        rcases mem_insertD _ _ _ _ h with h | h
        · exact Or.inr ⟨s, rfl, hs, h⟩
        · exact Or.inl h

theorem lookupD_storeTruthy_ne (d : Dict) (k k' : String) (o : Option String)
    (h : k' ≠ k) : lookupD (storeTruthy d k o) k' = lookupD d k' := by
  cases o with
  | none => rfl
  | some s =>
      by_cases hs : s = ""
      · rw [storeTruthy, if_neg (by simp [hs])]
      · rw [storeTruthy, if_pos hs]
        exact lookupD_insertD_ne _ _ _ _ h

/-! ## Claim theorems: completeness grading and validator gating -/

/-- Claim C2: for every cleaned data dict, the completeness tier returned
by `assess_completeness` is a pure function of how many of the three
critical fields (age, cholesterol, blood_pressure) are missing: 0 missing
yields EXCELLENT, exactly 1 yields GOOD, exactly 2 yields MINIMAL, all 3
missing (the only remaining case) yields POOR. -/
theorem c2_completeness_tier (d : Dict) :
    assess_completeness d =
      (if (get_missing_critical d).length = 0 then "EXCELLENT"
       else if (get_missing_critical d).length = 1 then "GOOD"
       else if (get_missing_critical d).length = 2 then "MINIMAL"
       else "POOR") := by
  have hiff : (get_missing_critical d = []) = ((get_missing_critical d).length = 0) := by
    simp [List.length_eq_zero]
  simp only [assess_completeness, hiff]
  split_ifs <;> first | rfl | omega

/-- Claim C3: `prepare_for_ml_model` returns a feature vector exactly when
the validated result's status is READY_FOR_PREDICTION, and `None` on every
other status. -/
theorem c3_prepare_gating (v : ValidationOutcome) :
    (prepare_for_ml_model v).isSome = (v.status == "READY_FOR_PREDICTION") := by
  unfold prepare_for_ml_model
  by_cases h : v.status = "READY_FOR_PREDICTION"
  · simp [h]
  · simp [h]

/-- Claim C6 (code evaluation at the failing input): for cleaned data with
age 61, `_extract_risk_insights` emits "Increased risk due to age > 45",
not the "Higher risk due to age > 60" insight the spec requires for
age > 60 — the source's `elif age > 60` branch sits behind `if age > 45`
and is unreachable. -/
theorem c6_age_insight_evaluation :
    extract_risk_insights [("age", vInt 61)] =
      [("age_risk", vStr "Increased risk due to age > 45")] := by
  decide

/-- Claim C9: a critical field bound to a falsy value (0, "", None,
False) is counted as missing by `get_missing_critical` exactly as if the
key were absent, and the completeness tier therefore agrees with the
key-absent dict: tier depends on truthiness, not key presence. -/
theorem c9_falsy_missing (d : Dict) (p : String) (v : PyValue)
    (hp : p ∈ critical_params) (hv : pyTruthy v = false) :
    get_missing_critical (insertD d p v) = get_missing_critical (eraseD d p) ∧
    assess_completeness (insertD d p v) = assess_completeness (eraseD d p) := by
  have hmiss : get_missing_critical (insertD d p v) = get_missing_critical (eraseD d p) := by
    unfold get_missing_critical
    apply List.filter_congr
    intro q _
    by_cases hpq : q = p
    · subst hpq
      simp [lookupD_insertD_self, lookupD_eraseD_self, hv]
    · simp [lookupD_insertD_ne _ _ _ _ hpq, lookupD_eraseD_ne _ _ _ hpq]
  exact ⟨hmiss, by unfold assess_completeness; rw [hmiss]⟩

/-- Witness for C9 at a concrete input: age present but 0. -/
theorem c9_falsy_missing_witness :
    get_missing_critical (insertD [] "age" (vInt 0)) = get_missing_critical (eraseD [] "age") ∧
    assess_completeness (insertD [] "age" (vInt 0)) = assess_completeness (eraseD [] "age") :=
  c9_falsy_missing [] "age" (vInt 0) (by decide) (by decide)

/-! ## Claim theorems: text extraction failure behaviour -/

/-- Claim C8 counterexample: `GeneralMedicalParser._extract_text` has no
`try/except` — an OCR failure propagates to its caller instead of
returning the empty string. -/
theorem c8_counterexample :
    ¬ ∃ s, fallback_extract_text (Except.error "ocr failure") = Except.ok s := by
  rintro ⟨s, h⟩
  simp [fallback_extract_text] at h

/-- Claim C8 as amended: only the lab-report parser's and the
classifier's `_extract_text` catch internal OCR failure and return `""`;
the clinic, discharge and fallback parsers' `_extract_text` propagate the
failure, which the surrounding `extract_data` catches, returning the
error dict (so extraction as a whole still never raises). -/
theorem c8_extract_text_amended :
    (∀ e, lab_extract_text (Except.error e) = "") ∧
    (∀ t, lab_extract_text (Except.ok t) = strLower t) ∧
    (∀ e, classifier_extract_text (Except.error e) = "") ∧
    (∀ e, clinic_extract_text (Except.error e) = Except.error e) ∧
    (∀ e, discharge_extract_text (Except.error e) = Except.error e) ∧
    (∀ e, fallback_extract_text (Except.error e) = Except.error e) ∧
    (∀ e search, clinic_extract_data (Except.error e) search =
      [("error", vStr e), ("document_type", vStr "clinic_notes")]) ∧
    (∀ e search, discharge_extract_data (Except.error e) search =
      [("error", vStr e), ("document_type", vStr "discharge_summary")]) ∧
    (∀ e, fallback_extract_data (Except.error e) =
      [("error", vStr e), ("document_type", vStr "general_medical")]) :=
  ⟨fun _ => rfl, fun _ => rfl, fun _ => rfl, fun _ => rfl, fun _ => rfl,
   fun _ => rfl, fun _ _ => rfl, fun _ _ => rfl, fun _ => rfl⟩

/-! ## Claim theorems: classifier -/

/-- Python's first-maximum fold over the three genre scores agrees with
the spec's "highest count wins, ties by declaration order, floor of 2"
description. -/
theorem classify_pick (s1 s2 s3 : Nat) :
    (if (pyMaxByValue [("lab_report", s1), ("discharge_summary", s2), ("clinic_notes", s3)]).2 ≥ 2
     then (pyMaxByValue [("lab_report", s1), ("discharge_summary", s2), ("clinic_notes", s3)]).1
     else "fallback") =
    (if max s1 (max s2 s3) < 2 then "fallback"
     else if s1 = max s1 (max s2 s3) then "lab_report"
     else if s2 = max s1 (max s2 s3) then "discharge_summary"
     else "clinic_notes") := by
  simp only [pyMaxByValue, List.foldl]
  split_ifs <;> first | rfl | omega

/-- Claim C7: classification is deterministic and follows the
keyword-count algorithm: the genre with the highest whole-word
keyword-match count wins, ties break in the fixed order
lab_report > discharge_summary > clinic_notes, and a winning count below
2 forces "fallback".  (`classify_spec` is that algorithm stated from the
spec's words; determinism is the second conjunct, and also immediate
because `classify_text` is a pure function of the transcript.) -/
theorem c7_classifier_algorithm (t : String) :
    classify_text t = classify_spec t ∧
    ∀ t', t' = t → classify_text t' = classify_text t := by
  refine ⟨?_, fun t' h => by rw [h]⟩
  unfold classify_text classify_spec
  simp only [document_keywords, List.map, List.get!]
  exact classify_pick _ _ _

/-! ## Claim theorems: parser range validation (C1) -/

/-- The validation ranges as the spec declares them (C1): age 1–120,
cholesterol 100–400, heart_rate 40–200, glucose 50–300, hdl 20–100,
ldl 50–300. -/
def claimRange (f : String) : Nat × Nat :=
  if f = "age" then (1, 120)
  else if f = "cholesterol" then (100, 400)
  else if f = "heart_rate" then (40, 200)
  else if f = "glucose" then (50, 300)
  else if f = "hdl" then (20, 100)
  else if f = "ldl" then (50, 300)
  else (0, 0)

theorem isDigit_ne (c x : Char) (h : c.isDigit = true) (hx : x.isDigit = false) :
    c ≠ x := by
  rintro rfl
  rw [h] at hx
  cases hx

theorem isSpaceCh_of_isDigit (c : Char) (h : c.isDigit = true) :
    isSpaceCh c = false := by
  have s1 := isDigit_ne c ' ' h (by decide)
  have s2 := isDigit_ne c '\t' h (by decide)
  have s3 := isDigit_ne c '\n' h (by decide)
  have s4 := isDigit_ne c '\r' h (by decide)
  have s5 := isDigit_ne c (Char.ofNat 11) h (by decide)
  have s6 := isDigit_ne c (Char.ofNat 12) h (by decide)
  simp [isSpaceCh, s1, s2, s3, s4, s5, s6]

theorem dropWhile_space_of_digits (cs : List Char) (h : cs.all Char.isDigit = true) :
    cs.dropWhile isSpaceCh = cs := by
  cases cs with
  | nil => rfl
  | cons c rest =>
      have hc : c.isDigit = true := by
        have := List.all_eq_true.mp h c (List.mem_cons_self _ _)
        simpa using this
      simp [List.dropWhile_cons, isSpaceCh_of_isDigit c hc]

theorem charTrim_of_digits (cs : List Char) (h : cs.all Char.isDigit = true) :
    charTrim cs = cs := by
  unfold charTrim
  rw [dropWhile_space_of_digits cs h]
  rw [dropWhile_space_of_digits cs.reverse (by simpa [List.all_reverse] using h)]
  exact List.reverse_reverse cs

theorem strIsDigit_parts (s : String) (h : strIsDigit s = true) :
    s.data ≠ [] ∧ s.data.all Char.isDigit = true := by
  unfold strIsDigit at h
  rw [Bool.and_eq_true] at h
  refine ⟨?_, h.2⟩
  have := h.1
  simpa using this

theorem pyIntOpt_digits (s : String) (h : strIsDigit s = true) :
    pyIntOpt s = some ((strToNatD s : Nat) : Int) := by
  obtain ⟨hne, hall⟩ := strIsDigit_parts s h
  unfold pyIntOpt strToNatD
  rw [charTrim_of_digits _ hall]
  rcases hd : s.data with _ | ⟨c, rest⟩
  · exact absurd hd hne
  · rw [hd] at hall
    have hc : c.isDigit = true := by
      have := List.all_eq_true.mp hall c (List.mem_cons_self _ _)
      simpa using this
    simp only [pyIntCore]
    rw [if_neg (isDigit_ne c '-' hc (by decide))]
    rw [if_neg (isDigit_ne c '+' hc (by decide))]
    rw [if_pos hall]

theorem valid_medical_range (f s : String) (hf : f ∈ labNumericFields)
    (hd : strIsDigit s = true) (h : is_valid_medical_value f s = true) :
    (claimRange f).1 ≤ strToNatD s ∧ strToNatD s ≤ (claimRange f).2 := by
  have hp := pyIntOpt_digits s hd
  unfold is_valid_medical_value at h
  rw [hp] at h
  have hr : rangeOk f ((strToNatD s : Nat) : Int) = true := h
  clear h
  fin_cases hf
  · rw [show claimRange "age" = (1, 120) from by decide]
    unfold rangeOk at hr
    rw [show validation_ranges.find? (fun r => r.1 = "age") = some ("age", 1, 120)
      from by decide] at hr
    have := of_decide_eq_true hr
    dsimp only at this ⊢
    omega
  · rw [show claimRange "cholesterol" = (100, 400) from by decide]
    unfold rangeOk at hr
    rw [show validation_ranges.find? (fun r => r.1 = "cholesterol") = some ("cholesterol", 100, 400)
      from by decide] at hr
    have := of_decide_eq_true hr
    dsimp only at this ⊢
    omega
  · rw [show claimRange "heart_rate" = (40, 200) from by decide]
    unfold rangeOk at hr
    rw [show validation_ranges.find? (fun r => r.1 = "heart_rate") = some ("heart_rate", 40, 200)
      from by decide] at hr
    have := of_decide_eq_true hr
    dsimp only at this ⊢
    omega
  · rw [show claimRange "glucose" = (50, 300) from by decide]
    unfold rangeOk at hr
    rw [show validation_ranges.find? (fun r => r.1 = "glucose") = some ("glucose", 50, 300)
      from by decide] at hr
    have := of_decide_eq_true hr
    dsimp only at this ⊢
    omega
  · rw [show claimRange "hdl" = (20, 100) from by decide]
    unfold rangeOk at hr
    rw [show validation_ranges.find? (fun r => r.1 = "hdl") = some ("hdl", 20, 100)
      from by decide] at hr
    have := of_decide_eq_true hr
    dsimp only at this ⊢
    omega
  · rw [show claimRange "ldl" = (50, 300) from by decide]
    unfold rangeOk at hr
    rw [show validation_ranges.find? (fun r => r.1 = "ldl") = some ("ldl", 50, 300)
      from by decide] at hr
    have := of_decide_eq_true hr
    dsimp only at this ⊢
    omega

theorem extract_field_numeric (search : SearchOracle) (f : String)
    (hf : f ∈ labNumericFields) :
    ∀ l s, extract_field_enhanced search f l = some s →
      strIsDigit s = true ∧ is_valid_medical_value f s = true := by
  have hbp : ¬ f = "blood_pressure" := by
    rintro rfl
    revert hf
    decide
  intro l
  induction l with
  | nil => intro s h; simp [extract_field_enhanced] at h
  | cons i is ih =>
      intro s h
      simp only [extract_field_enhanced] at h
      split at h
      · exact ih _ h
      · rw [if_neg hbp, if_pos hf] at h
        split at h
        · split_ifs at h with h1 h2
          · injection h with h
            subst h
            exact ⟨h1.2, h2⟩
          · exact ih _ h
          · exact ih _ h
        · exact ih _ h

theorem extract_field_bp (search : SearchOracle) :
    ∀ l s, extract_field_enhanced search "blood_pressure" l = some s →
      ∃ (sa sb : String) (a b : Int), s = sa ++ "/" ++ sb ∧
        pyIntOpt sa = some a ∧ pyIntOpt sb = some b ∧
        70 ≤ a ∧ a ≤ 250 ∧ 40 ≤ b ∧ b ≤ 150 := by
  intro l
  induction l with
  | nil => intro s h; simp [extract_field_enhanced] at h
  | cons i is ih =>
      intro s h
      simp only [extract_field_enhanced] at h
      split at h
      · exact ih _ h
      · rw [if_pos trivial] at h
        split_ifs at h with h1
        · injection h with h
          subst h
          rename_i groups _
          unfold is_valid_bp at h1
          split at h1
          · rename_i sa sb heq1 heq2
            split at h1
            · rename_i a b hi1 hi2
              have hb := of_decide_eq_true h1
              rw [heq1, heq2]
              exact ⟨sa, sb, a, b, rfl, hi1, hi2, hb.1, hb.2.1, hb.2.2.1, hb.2.2.2⟩
            · cases h1
          · cases h1
        · exact ih _ h

theorem aggressive_chol_range (search : SearchOracle) :
    ∀ l s, aggressive_cholesterol_search search l = some s →
      strIsDigit s = true ∧ 100 ≤ strToNatD s ∧ strToNatD s ≤ 400 := by
  intro l
  induction l with
  | nil => intro s h; simp [aggressive_cholesterol_search] at h
  | cons i is ih =>
      intro s h
      simp only [aggressive_cholesterol_search] at h
      split at h
      · exact ih _ h
      · split at h
        · split_ifs at h with h1
          · injection h with h
            subst h
            exact ⟨h1.1, h1.2.1, h1.2.2⟩
          · exact ih _ h
        · exact ih _ h

theorem casual_bp_range (findallBp : List (String × String)) (s : String)
    (h : extract_casual_bp findallBp = some s) :
    ∃ (sa sb : String) (a b : Int), s = sa ++ "/" ++ sb ∧
      pyIntOpt sa = some a ∧ pyIntOpt sb = some b ∧
      70 ≤ a ∧ a ≤ 250 ∧ 40 ≤ b ∧ b ≤ 150 := by
  unfold extract_casual_bp at h
  rcases hf : findallBp.find? (fun p => is_valid_bp (some p.1) (some p.2)) with _ | p
  · rw [hf] at h
    cases h
  · rw [hf] at h
    injection h with h
    subst h
    have h1 := List.find?_some hf
    unfold is_valid_bp at h1
    dsimp only at h1
    split at h1
    · rename_i a b hi1 hi2
      have hb := of_decide_eq_true h1
      exact ⟨p.1, p.2, a, b, rfl, hi1, hi2, hb.1, hb.2.1, hb.2.2.1, hb.2.2.2⟩
    · cases h1

theorem smart_bp_range (text : String) (s : String)
    (h : smart_bp_detection text = some s) :
    ∃ a b : Nat, s = natRepr a ++ "/" ++ natRepr b ∧
      70 ≤ a ∧ a ≤ 250 ∧ 40 ≤ b ∧ b ≤ 150 := by
  unfold smart_bp_detection at h
  rcases hf : (findallD23 text).find? (fun p =>
      70 ≤ strToNatD p.1 ∧ strToNatD p.1 ≤ 250 ∧
      40 ≤ strToNatD p.2 ∧ strToNatD p.2 ≤ 150) with _ | p
  · rw [hf] at h
    cases h
  · rw [hf] at h
    injection h with h
    subst h
    have h1 := List.find?_some hf
    have hb := of_decide_eq_true h1
    exact ⟨strToNatD p.1, strToNatD p.2, rfl, hb.1, hb.2.1, hb.2.2.1, hb.2.2.2⟩

/-- The per-binding guarantee of the lab parser (C1): numeric fields hold
in-range digit strings, blood pressure holds an in-range pair. -/
def labEntryOk (kv : String × PyValue) : Prop :=
  (kv.1 ∈ labNumericFields → ∃ s, kv.2 = vStr s ∧ strIsDigit s = true ∧
      (claimRange kv.1).1 ≤ strToNatD s ∧ strToNatD s ≤ (claimRange kv.1).2) ∧
  (kv.1 = "blood_pressure" → ∃ (sa sb : String) (a b : Int),
      kv.2 = vStr (sa ++ "/" ++ sb) ∧
      pyIntOpt sa = some a ∧ pyIntOpt sb = some b ∧
      70 ≤ a ∧ a ≤ 250 ∧ 40 ≤ b ∧ b ≤ 150)

theorem labEntryOk_of_numeric (f s : String) (hf : f ∈ labNumericFields)
    (hd : strIsDigit s = true) (hlo : (claimRange f).1 ≤ strToNatD s)
    (hhi : strToNatD s ≤ (claimRange f).2) : labEntryOk (f, vStr s) := by
  unfold labEntryOk
  dsimp only
  constructor
  · exact fun _ => ⟨s, rfl, hd, hlo, hhi⟩
  · intro hbp
    rw [hbp] at hf
    exact absurd hf (by decide)

theorem lab_inv_store_numeric (search : SearchOracle) (d : Dict) (f : String)
    (l : List Nat) (hf : f ∈ labNumericFields)
    (hd : ∀ kv ∈ d, labEntryOk kv) :
    ∀ kv ∈ storeTruthy d f (extract_field_enhanced search f l), labEntryOk kv := by
  intro kv hm
  rcases mem_storeTruthy _ _ _ _ hm with hm | ⟨s, hs, _, rfl⟩
  · exact hd kv hm
  · have h1 := extract_field_numeric search f hf _ _ hs
    have h2 := valid_medical_range f s hf h1.1 h1.2
    exact labEntryOk_of_numeric f s hf h1.1 h2.1 h2.2

theorem labEntryOk_of_bp (s : String)
    (h : ∃ (sa sb : String) (a b : Int), s = sa ++ "/" ++ sb ∧
      pyIntOpt sa = some a ∧ pyIntOpt sb = some b ∧
      70 ≤ a ∧ a ≤ 250 ∧ 40 ≤ b ∧ b ≤ 150) :
    labEntryOk ("blood_pressure", vStr s) := by
  unfold labEntryOk
  dsimp only
  constructor
  · intro hmem
    exact absurd hmem (by decide)
  · intro _
    obtain ⟨sa, sb, a, b, rfl, h2⟩ := h
    exact ⟨sa, sb, a, b, rfl, h2⟩

theorem lab_inv_store_bp (search : SearchOracle) (d : Dict) (l : List Nat)
    (hd : ∀ kv ∈ d, labEntryOk kv) :
    ∀ kv ∈ storeTruthy d "blood_pressure" (extract_field_enhanced search "blood_pressure" l),
      labEntryOk kv := by
  intro kv hm
  rcases mem_storeTruthy _ _ _ _ hm with hm | ⟨s, hs, _, rfl⟩
  · exact hd kv hm
  · exact labEntryOk_of_bp s (extract_field_bp search _ _ hs)

theorem lab_inv_casual (findallBp : List (String × String)) (d : Dict)
    (hd : ∀ kv ∈ d, labEntryOk kv) :
    ∀ kv ∈ labStepCasual findallBp d, labEntryOk kv := by
  intro kv hm
  unfold labStepCasual at hm
  split at hm
  · split at hm
    · rename_i s hs
      rcases mem_insertD _ _ _ _ hm with rfl | hm
      · exact labEntryOk_of_bp s (casual_bp_range findallBp s hs)
      · exact hd kv hm
    · exact hd kv hm
  · exact hd kv hm

theorem lab_inv_aggressive (search : SearchOracle) (d : Dict)
    (hd : ∀ kv ∈ d, labEntryOk kv) :
    ∀ kv ∈ labStepAggressive search d, labEntryOk kv := by
  intro kv hm
  unfold labStepAggressive at hm
  split at hm
  · split at hm
    · rename_i s hs
      rcases mem_insertD _ _ _ _ hm with rfl | hm
      · have h1 := aggressive_chol_range search _ _ hs
        exact labEntryOk_of_numeric "cholesterol" s (by decide) h1.1
          (by rw [show claimRange "cholesterol" = (100, 400) from by decide]; exact h1.2.1)
          (by rw [show claimRange "cholesterol" = (100, 400) from by decide]; exact h1.2.2)
      · exact hd kv hm
    · exact hd kv hm
  · exact hd kv hm

/-- Every binding the lab parser stores satisfies the per-field range
guarantee, whatever the regex engine returns. -/
theorem lab_invariant (search : SearchOracle) (findallBp : List (String × String)) :
    ∀ kv ∈ lab_extract_from search findallBp, labEntryOk kv := by
  unfold lab_extract_from
  exact lab_inv_aggressive search _ (lab_inv_casual findallBp _
    (lab_inv_store_numeric search _ "ldl" _ (by decide)
      (lab_inv_store_numeric search _ "hdl" _ (by decide)
        (lab_inv_store_numeric search _ "glucose" _ (by decide)
          (lab_inv_store_numeric search _ "heart_rate" _ (by decide)
            (lab_inv_store_bp search _ _
              (lab_inv_store_numeric search _ "cholesterol" _ (by decide)
                (lab_inv_store_numeric search _ "age" _ (by decide)
                  (by intro kv hm; cases hm)))))))))

theorem fallback_bp_inline_lookup (text : String) (d : Dict) (v : PyValue)
    (hd : lookupD d "blood_pressure" = some v →
      ∃ a b : Nat, v = vStr (natRepr a ++ "/" ++ natRepr b) ∧
        70 ≤ a ∧ a ≤ 250 ∧ 40 ≤ b ∧ b ≤ 150)
    (h : lookupD (fallbackBpInline text d) "blood_pressure" = some v) :
    ∃ a b : Nat, v = vStr (natRepr a ++ "/" ++ natRepr b) ∧
      70 ≤ a ∧ a ≤ 250 ∧ 40 ≤ b ∧ b ≤ 150 := by
  unfold fallbackBpInline at h
  split at h
  · rename_i a b heq
    split at h
    · rename_i hcond
      rw [lookupD_insertD_self] at h
      injection h with h
      subst h
      exact ⟨strToNatD a, strToNatD b, rfl, hcond.1, hcond.2.1, hcond.2.2.1, hcond.2.2.2⟩
    · exact hd h
  · exact hd h

theorem fallback_smart_lookup (text : String) (d : Dict) (v : PyValue)
    (hd : lookupD d "blood_pressure" = some v →
      ∃ a b : Nat, v = vStr (natRepr a ++ "/" ++ natRepr b) ∧
        70 ≤ a ∧ a ≤ 250 ∧ 40 ≤ b ∧ b ≤ 150)
    (h : lookupD (fallbackSmartStep text d) "blood_pressure" = some v) :
    ∃ a b : Nat, v = vStr (natRepr a ++ "/" ++ natRepr b) ∧
      70 ≤ a ∧ a ≤ 250 ∧ 40 ≤ b ∧ b ≤ 150 := by
  unfold fallbackSmartStep at h
  split at h
  · split at h
    · rename_i s hs
      rw [lookupD_insertD_self] at h
      injection h with h
      subst h
      obtain ⟨a2, b2, hseq, h1, h2, h3, h4⟩ := smart_bp_range text s hs
      subst hseq
      exact ⟨a2, b2, rfl, h1, h2, h3, h4⟩
    · exact hd h
  · exact hd h

/-- Any blood-pressure value the fallback parser stores is an in-range
systolic/diastolic pair, for every transcript. -/
theorem fallback_bp_lookup (text : String) (v : PyValue)
    (h : lookupD (fallback_extract_from_text text) "blood_pressure" = some v) :
    ∃ a b : Nat, v = vStr (natRepr a ++ "/" ++ natRepr b) ∧
      70 ≤ a ∧ a ≤ 250 ∧ 40 ≤ b ∧ b ≤ 150 := by
  unfold fallback_extract_from_text at h
  rw [lookupD_insertD_ne _ _ _ _ (by decide), lookupD_insertD_ne _ _ _ _ (by decide),
    lookupD_insertD_ne _ _ _ _ (by decide)] at h
  refine fallback_smart_lookup text _ v ?_ h
  intro h2
  rw [lookupD_storeTruthy_ne _ _ _ _ (by decide),
    lookupD_storeTruthy_ne _ _ _ _ (by decide)] at h2
  refine fallback_bp_inline_lookup text _ v ?_ h2
  intro h3
  rw [lookupD_storeTruthy_ne _ _ _ _ (by decide)] at h3
  simp [lookupD] at h3

/-- Claim C1 counterexample: the fallback parser on the transcript
"age: 999" stores age "999", far above the declared range 1–120 — matched
values outside range do appear in an ExtractionResult. -/
theorem c1_counterexample :
    lookupD (fallback_extract_from_text "age: 999") "age" = some (vStr "999") ∧
    strToNatD "999" > (claimRange "age").2 := by
  decide

/-- Claim C1 as amended: inline range validation guarantees in-range
values for all numeric fields and blood pressure in the lab-report parser
(including its casual-BP and aggressive-cholesterol fallbacks, whatever
the regex engine returns), and for the blood_pressure field of the
fallback parser; the clinic-notes, discharge-summary and fallback parsers
store their other matched numeric fields (age, cholesterol, heart rate)
without range validation, as the counterexample shows. -/
theorem c1_range_validation_amended :
    (∀ (search : SearchOracle) (findallBp : List (String × String)) (f : String),
        f ∈ labNumericFields → ∀ v, lookupD (lab_extract_from search findallBp) f = some v →
        ∃ s, v = vStr s ∧ strIsDigit s = true ∧
          (claimRange f).1 ≤ strToNatD s ∧ strToNatD s ≤ (claimRange f).2) ∧
    (∀ (search : SearchOracle) (findallBp : List (String × String)) (v : PyValue),
        lookupD (lab_extract_from search findallBp) "blood_pressure" = some v →
        ∃ (sa sb : String) (a b : Int), v = vStr (sa ++ "/" ++ sb) ∧
          pyIntOpt sa = some a ∧ pyIntOpt sb = some b ∧
          70 ≤ a ∧ a ≤ 250 ∧ 40 ≤ b ∧ b ≤ 150) ∧
    (∀ (text : String) (v : PyValue),
        lookupD (fallback_extract_from_text text) "blood_pressure" = some v →
        ∃ a b : Nat, v = vStr (natRepr a ++ "/" ++ natRepr b) ∧
          70 ≤ a ∧ a ≤ 250 ∧ 40 ≤ b ∧ b ≤ 150) := by
  refine ⟨?_, ?_, fallback_bp_lookup⟩
  · intro search fb f hf v hl
    exact (lab_invariant search fb (f, v) (lookupD_mem _ _ _ hl)).1 hf
  · intro search fb v hl
    exact (lab_invariant search fb ("blood_pressure", v) (lookupD_mem _ _ _ hl)).2 rfl

/-- A regex oracle representing a transcript in which only the first age
pattern of the lab parser matches, capturing "45". -/
def oracleAge45 : SearchOracle := fun f i =>
  if f = "age" ∧ i = 0 then some [some "45"] else none

/-- Witness for C1's amended theorem at a concrete oracle: the lab parser
stores age "45", inside 1–120. -/
theorem c1_range_validation_witness :
    ∃ s, vStr "45" = vStr s ∧ strIsDigit s = true ∧
      (claimRange "age").1 ≤ strToNatD s ∧ strToNatD s ≤ (claimRange "age").2 :=
  c1_range_validation_amended.1 oracleAge45 [] "age" (by decide) (vStr "45") (by decide)

/-! ## Rendering and splitting lemmas for cleaned blood pressure -/

theorem digitChar_isDigit (r : Nat) : (digitChar r).isDigit = true := by
  rcases r with _|_|_|_|_|_|_|_|_|r <;> rfl

theorem natReprCore_digits : ∀ fuel n, ∀ c ∈ natReprCore fuel n, c.isDigit = true := by
  intro fuel
  induction fuel with
  | zero => intro n c hc; simp [natReprCore] at hc
  | succ fuel ih =>
      intro n c hc
      simp only [natReprCore] at hc
      split at hc
      · rcases List.mem_singleton.mp hc with rfl
        exact digitChar_isDigit n
      · rcases List.mem_append.mp hc with h | h
        · exact ih _ c h
        · rcases List.mem_singleton.mp h with rfl
          exact digitChar_isDigit (n % 10)

theorem natRepr_no_slash (n : Nat) : '/' ∉ (natRepr n).data := by
  intro hc
  have := natReprCore_digits (n + 1) n '/' hc
  cases this

theorem splitSlashChars_append (x y : List Char) (hx : '/' ∉ x) :
    splitSlashChars (x ++ '/' :: y) = x :: splitSlashChars y := by
  induction x with
  | nil => simp [splitSlashChars]
  | cons c cs ih =>
      have hc : ¬ c = '/' := by
        intro e
        subst e
        exact hx (List.mem_cons_self _ _)
      have hx' : '/' ∉ cs := fun h => hx (List.mem_cons_of_mem _ h)
      rw [List.cons_append]
      simp only [splitSlashChars, hc, if_false, ih hx']

theorem splitSlashChars_no_slash (y : List Char) (hy : '/' ∉ y) :
    splitSlashChars y = [y] := by
  induction y with
  | nil => rfl
  | cons c cs ih =>
      have hc : ¬ c = '/' := by
        intro e
        subst e
        exact hy (List.mem_cons_self _ _)
      have hy' : '/' ∉ cs := fun h => hy (List.mem_cons_of_mem _ h)
      simp only [splitSlashChars, hc, if_false, ih hy']

theorem sSplitSlash_bp (a b : Nat) :
    sSplitSlash (natRepr a ++ "/" ++ natRepr b) = [natRepr a, natRepr b] := by
  unfold sSplitSlash
  have hdata : (natRepr a ++ "/" ++ natRepr b).data =
      (natRepr a).data ++ '/' :: (natRepr b).data := by
    rw [String.data_append, String.data_append, List.append_assoc]
    rfl
  rw [hdata, splitSlashChars_append _ _ (natRepr_no_slash a),
    splitSlashChars_no_slash _ (natRepr_no_slash b)]
  rfl

/-! ## Cleaned-data lemmas -/

theorem clean_lookup_mem (d : Dict) (k : String) (v : PyValue)
    (h : lookupD (clean_extracted_data d) k = some v) :
    ∃ v0, (k, v0) ∈ d ∧ cleanItem k v0 = some v := by
  unfold clean_extracted_data at h
  suffices H : ∀ (l : List (String × PyValue)) (acc : Dict),
      lookupD (l.foldl (fun acc kv =>
        match cleanItem kv.1 kv.2 with
        | some w => insertD acc kv.1 w
        | none => acc) acc) k = some v →
      lookupD acc k = some v ∨ ∃ v0, (k, v0) ∈ l ∧ cleanItem k v0 = some v by
    rcases H d [] h with h | h
    · simp [lookupD] at h
    · exact h
  intro l
  induction l with
  | nil => intro acc h; exact Or.inl h
  | cons kv rest ih =>
      intro acc h
      rw [List.foldl_cons] at h
      rcases ih _ h with h | ⟨v0, hm, hc⟩
      · rcases hcl : cleanItem kv.1 kv.2 with _ | w
        · rw [hcl] at h
          exact Or.inl h
        · rw [hcl] at h
          by_cases hk : k = kv.1
          · subst hk
            rw [lookupD_insertD_self] at h
            injection h with h
            subst h
            exact Or.inr ⟨kv.2, by simp, hcl⟩
          · rw [lookupD_insertD_ne _ _ _ _ hk] at h
            exact Or.inl h
      · exact Or.inr ⟨v0, List.mem_cons_of_mem _ hm, hc⟩

theorem clean_blood_pressure_shape (v0 : PyValue) (s : String)
    (h : clean_blood_pressure v0 = some s) :
    ∃ a b : Nat, s = natRepr a ++ "/" ++ natRepr b ∧
      70 ≤ a ∧ a ≤ 250 ∧ 40 ≤ b ∧ b ≤ 150 := by
  simp only [clean_blood_pressure] at h
  split at h
  · cases h
  · split at h
    · split at h
      · rename_i p0 p1 heq
        split at h
        · split at h
          · rename_i hrange
            injection h with h
            subst h
            exact ⟨strToNatD p0, strToNatD p1, rfl,
              hrange.1, hrange.2.1, hrange.2.2.1, hrange.2.2.2⟩
          · cases h
        · cases h
      · cases h
    · cases h

theorem clean_bp_shape (v0 v : PyValue)
    (h : cleanItem "blood_pressure" v0 = some v) :
    ∃ a b : Nat, v = vStr (natRepr a ++ "/" ++ natRepr b) ∧
      70 ≤ a ∧ a ≤ 250 ∧ 40 ≤ b ∧ b ≤ 150 := by
  unfold cleanItem at h
  by_cases hg : (pyTruthy v0 && v0 != vStr "None" && v0 != vStr "null") = true
  · rw [if_pos hg] at h
    rw [if_neg (by rintro ⟨e, _⟩; exact absurd e (by decide))] at h
    rw [if_pos rfl] at h
    rcases hcb : clean_blood_pressure v0 with _ | s
    · rw [hcb] at h
      cases h
    · rw [hcb] at h
      injection h with h
      subst h
      obtain ⟨a, b, hseq, hb⟩ := clean_blood_pressure_shape v0 s hcb
      exact ⟨a, b, by rw [hseq], hb⟩
  · rw [if_neg hg] at h
    cases h

/-! ## ML-input construction lemmas -/

theorem containsD_insertD_of (m : Dict) (k k2 : String) (v : PyValue)
    (h : containsD m k = true) : containsD (insertD m k2 v) k = true := by
  by_cases e : k = k2
  · subst e
    exact containsD_insertD_self _ _ _
  · rw [containsD_insertD_ne _ _ _ _ e]
    exact h

theorem lookupD_mapstep_ne (data ml : Dict) (st : String × String) (k : String)
    (h : k ≠ st.2) : lookupD (mlMapStep data ml st) k = lookupD ml k := by
  unfold mlMapStep
  split
  · exact lookupD_insertD_ne _ _ _ _ h
  · rfl

theorem containsD_mapstep_ne (data ml : Dict) (st : String × String) (k : String)
    (h : k ≠ st.2) : containsD (mlMapStep data ml st) k = containsD ml k := by
  simp [containsD, lookupD_mapstep_ne data ml st k h]

theorem containsD_mapstep_of (data ml : Dict) (st : String × String) (k : String)
    (h : containsD ml k = true) : containsD (mlMapStep data ml st) k = true := by
  unfold mlMapStep
  split
  · exact containsD_insertD_of _ _ _ _ h
  · exact h

theorem lookupD_bpstep_ne (data ml : Dict) (k : String) (h : k ≠ "trestbps") :
    lookupD (mlBpStep data ml) k = lookupD ml k := by
  unfold mlBpStep
  split
  · split
    · exact lookupD_insertD_ne _ _ _ _ h
    · rfl
  · rfl
  · rfl

theorem containsD_bpstep_ne (data ml : Dict) (k : String) (h : k ≠ "trestbps") :
    containsD (mlBpStep data ml) k = containsD ml k := by
  simp [containsD, lookupD_bpstep_ne data ml k h]

theorem containsD_bpstep_of (data ml : Dict) (k : String)
    (h : containsD ml k = true) : containsD (mlBpStep data ml) k = true := by
  unfold mlBpStep
  split
  · split
    · exact containsD_insertD_of _ _ _ _ h
    · exact h
  · exact h
  · exact h

theorem lookupD_defstep_ne (ml : Dict) (kv : String × PyValue) (k : String)
    (h : k ≠ kv.1) : lookupD (mlDefaultStep ml kv) k = lookupD ml k := by
  unfold mlDefaultStep
  split
  · exact lookupD_insertD_ne _ _ _ _ h
  · rfl

theorem containsD_defstep_ne (ml : Dict) (kv : String × PyValue) (k : String)
    (h : k ≠ kv.1) : containsD (mlDefaultStep ml kv) k = containsD ml k := by
  simp [containsD, lookupD_defstep_ne ml kv k h]

theorem containsD_defstep_of (ml : Dict) (kv : String × PyValue) (k : String)
    (h : containsD ml k = true) : containsD (mlDefaultStep ml kv) k = true := by
  unfold mlDefaultStep
  split
  · exact containsD_insertD_of _ _ _ _ h
  · exact h

theorem containsD_defstep_self (ml : Dict) (kv : String × PyValue) :
    containsD (mlDefaultStep ml kv) kv.1 = true := by
  unfold mlDefaultStep
  split
  · exact containsD_insertD_self _ _ _
  · rename_i hcond
    simpa using hcond

theorem containsD_fbsstep_ne (ml : Dict) (k : String) (h : k ≠ "fbs") :
    containsD (mlFbsStep ml) k = containsD ml k := by
  unfold mlFbsStep
  split
  · simp [containsD, lookupD_insertD_ne _ _ _ _ h]
  · rfl

theorem containsD_fbsstep_of (ml : Dict) (k : String)
    (h : containsD ml k = true) : containsD (mlFbsStep ml) k = true := by
  unfold mlFbsStep
  split
  · exact containsD_insertD_of _ _ _ _ h
  · exact h

theorem containsD_fbsstep_fbs (ml : Dict) :
    containsD (mlFbsStep ml) "fbs" = containsD ml "fbs" := by
  unfold mlFbsStep
  rcases hl : lookupD ml "fbs" with _ | v
  · rfl
  · simp [containsD, lookupD_insertD_self, hl]

theorem lookupD_fbsstep_ne (ml : Dict) (k : String) (h : k ≠ "fbs") :
    lookupD (mlFbsStep ml) k = lookupD ml k := by
  unfold mlFbsStep
  split
  · exact lookupD_insertD_ne _ _ _ _ h
  · rfl

/-! ## Validator status analysis -/

theorem validate_ready (extracted : Dict)
    (h : (validate_and_prepare_prediction extracted).status = "READY_FOR_PREDICTION") :
    validate_and_prepare_prediction extracted =
      handle_excellent_data (clean_extracted_data extracted) ∧
    get_missing_critical (clean_extracted_data extracted) = [] := by
  unfold validate_and_prepare_prediction at h ⊢
  by_cases h1 : assess_completeness (clean_extracted_data extracted) = "EXCELLENT"
  · rw [if_pos h1] at h ⊢
    refine ⟨rfl, ?_⟩
    unfold assess_completeness at h1
    by_cases a : get_missing_critical (clean_extracted_data extracted) = []
    · exact a
    · rw [if_neg a] at h1
      split_ifs at h1 <;> exact absurd h1 (by decide)
  · rw [if_neg h1] at h
    by_cases h2 : assess_completeness (clean_extracted_data extracted) = "GOOD"
    · rw [if_pos h2] at h
      rw [show (handle_good_data (clean_extracted_data extracted)).status =
        "READY_WITH_WARNING" from rfl] at h
      exact absurd h (by decide)
    · rw [if_neg h2] at h
      by_cases h3 : assess_completeness (clean_extracted_data extracted) = "MINIMAL"
      · rw [if_pos h3] at h
        rw [show (handle_minimal_data (clean_extracted_data extracted)).status =
          "PARTIAL_INSIGHTS" from rfl] at h
        exact absurd h (by decide)
      · rw [if_neg h3] at h
        rw [show (handle_poor_data (clean_extracted_data extracted)).status =
          "CANNOT_PROCESS" from rfl] at h
        exact absurd h (by decide)

theorem missing_pred_false (d : Dict) (p : String)
    (h : (match lookupD d p with
          | none => true
          | some v => !pyTruthy v) = false) :
    ∃ v, lookupD d p = some v ∧ pyTruthy v = true := by
  rcases hl : lookupD d p with _ | v
  · rw [hl] at h
    cases h
  · rw [hl] at h
    simp at h
    exact ⟨v, rfl, h⟩

theorem missing_nil_contains (d : Dict) (h : get_missing_critical d = []) :
    (∃ v, lookupD d "age" = some v ∧ pyTruthy v = true) ∧
    (∃ v, lookupD d "cholesterol" = some v ∧ pyTruthy v = true) ∧
    (∃ v, lookupD d "blood_pressure" = some v ∧ pyTruthy v = true) := by
  unfold get_missing_critical at h
  rw [List.filter_eq_nil_iff] at h
  refine ⟨?_, ?_, ?_⟩
  · exact missing_pred_false d "age"
      (Bool.not_eq_true _ ▸ Bool.of_not_eq_true (h "age" (by decide)))
  · exact missing_pred_false d "cholesterol"
      (Bool.not_eq_true _ ▸ Bool.of_not_eq_true (h "cholesterol" (by decide)))
  · exact missing_pred_false d "blood_pressure"
      (Bool.not_eq_true _ ▸ Bool.of_not_eq_true (h "blood_pressure" (by decide)))

theorem containsD_deffold_of (l : List (String × PyValue)) (ml : Dict) (k : String)
    (h : containsD ml k = true) : containsD (l.foldl mlDefaultStep ml) k = true := by
  induction l generalizing ml with
  | nil => exact h
  | cons kv rest ih => exact ih _ (containsD_defstep_of _ _ _ h)

theorem containsD_deffold_mem (l : List (String × PyValue)) (ml : Dict)
    (kv : String × PyValue) (h : kv ∈ l) :
    containsD (l.foldl mlDefaultStep ml) kv.1 = true := by
  induction l generalizing ml with
  | nil => cases h
  | cons kv0 rest ih =>
      rcases List.mem_cons.mp h with rfl | h
      · exact containsD_deffold_of rest _ _ (containsD_defstep_self ml kv)
      · exact ih _ h

theorem containsD_deffold_ne (l : List (String × PyValue)) (ml : Dict) (k : String)
    (h : ∀ kv ∈ l, ¬ k = kv.1) :
    containsD (l.foldl mlDefaultStep ml) k = containsD ml k := by
  induction l generalizing ml with
  | nil => rfl
  | cons kv0 rest ih =>
      rw [List.foldl_cons, ih _ (fun kv hm => h kv (List.mem_cons_of_mem _ hm))]
      exact containsD_defstep_ne _ _ _ (h kv0 (List.mem_cons_self _ _))

theorem lookupD_deffold_ne (l : List (String × PyValue)) (ml : Dict) (k : String)
    (h : ∀ kv ∈ l, ¬ k = kv.1) :
    lookupD (l.foldl mlDefaultStep ml) k = lookupD ml k := by
  induction l generalizing ml with
  | nil => rfl
  | cons kv0 rest ih =>
      rw [List.foldl_cons, ih _ (fun kv hm => h kv (List.mem_cons_of_mem _ hm))]
      exact lookupD_defstep_ne _ _ _ (h kv0 (List.mem_cons_self _ _))

theorem lookupD_defstep_self_miss (ml : Dict) (kv : String × PyValue)
    (h : containsD ml kv.1 = false) :
    lookupD (mlDefaultStep ml kv) kv.1 = some kv.2 := by
  unfold mlDefaultStep
  rw [if_pos (by simp [h])]
  exact lookupD_insertD_self _ _ _

/-- Applying the defaults loop to a dict in which a listed slot is still
missing stores that slot's fixed value, provided the list's keys are
pairwise distinct. -/
theorem lookupD_deffold_mem_val (l : List (String × PyValue)) (ml : Dict)
    (kv : String × PyValue) (h : kv ∈ l)
    (hml : containsD ml kv.1 = false)
    (hnd : l.Pairwise (fun a b => a.1 ≠ b.1)) :
    lookupD (l.foldl mlDefaultStep ml) kv.1 = some kv.2 := by
  induction l generalizing ml with
  | nil => cases h
  | cons kv0 rest ih =>
      rw [List.foldl_cons]
      rcases List.mem_cons.mp h with rfl | hmem
      · have hrest : ∀ kv2 ∈ rest, ¬ kv.1 = kv2.1 :=
          fun kv2 hk2 => (List.pairwise_cons.mp hnd).1 kv2 hk2
        rw [lookupD_deffold_ne rest _ _ hrest]
        exact lookupD_defstep_self_miss ml kv hml
      · have hne : kv0.1 ≠ kv.1 := (List.pairwise_cons.mp hnd).1 kv hmem
        exact ih _ hmem
          (by rw [containsD_defstep_ne _ _ _ (Ne.symm hne)]; exact hml)
          ((List.pairwise_cons.mp hnd).2)

theorem containsD_mapstep_self (data ml : Dict) (st : String × String)
    (h : containsD data st.1 = true) :
    containsD (mlMapStep data ml st) st.2 = true := by
  unfold mlMapStep
  rw [if_pos h]
  exact containsD_insertD_self _ _ _

theorem containsD_mapstep_miss (data ml : Dict) (st : String × String) (k : String)
    (hmiss : containsD data st.1 = false) :
    containsD (mlMapStep data ml st) k = containsD ml k := by
  unfold mlMapStep
  rw [if_neg (by simp [hmiss])]

theorem lookupD_mapstep_hit (data ml : Dict) (st : String × String) (v : PyValue)
    (hhit : containsD data st.1 = true) (hlook : lookupD data st.1 = some v) :
    lookupD (mlMapStep data ml st) st.2 = some v := by
  unfold mlMapStep
  rw [if_pos hhit, lookupD_insertD_self, hlook]
  rfl

theorem containsD_bpstep_self (data ml : Dict) (a b : Nat)
    (hbp : lookupD data "blood_pressure" = some (vStr (natRepr a ++ "/" ++ natRepr b))) :
    containsD (mlBpStep data ml) "trestbps" = true := by
  simp only [mlBpStep, hbp, sSplitSlash_bp]
  exact containsD_insertD_self _ _ _

theorem buildMl_contains_age (data : Dict) (h : containsD data "age" = true) :
    containsD (buildMlInput data) "age" = true := by
  unfold buildMlInput
  simp only [mlMapping, List.foldl_cons, List.foldl_nil]
  apply containsD_fbsstep_of
  apply containsD_deffold_of
  apply containsD_bpstep_of
  apply containsD_mapstep_of
  apply containsD_mapstep_of
  apply containsD_mapstep_of
  exact containsD_mapstep_self data [] ("age", "age") h

theorem buildMl_contains_chol (data : Dict) (h : containsD data "cholesterol" = true) :
    containsD (buildMlInput data) "chol" = true := by
  unfold buildMlInput
  simp only [mlMapping, List.foldl_cons, List.foldl_nil]
  apply containsD_fbsstep_of
  apply containsD_deffold_of
  apply containsD_bpstep_of
  apply containsD_mapstep_of
  apply containsD_mapstep_of
  exact containsD_mapstep_self data _ ("cholesterol", "chol") h

theorem buildMl_contains_trestbps (data : Dict) (a b : Nat)
    (hbp : lookupD data "blood_pressure" = some (vStr (natRepr a ++ "/" ++ natRepr b))) :
    containsD (buildMlInput data) "trestbps" = true := by
  unfold buildMlInput
  apply containsD_fbsstep_of
  apply containsD_deffold_of
  exact containsD_bpstep_self data _ a b hbp

theorem buildMl_contains_default (data : Dict) (kv : String × PyValue)
    (h : kv ∈ mlDefaults) : containsD (buildMlInput data) kv.1 = true := by
  unfold buildMlInput
  apply containsD_fbsstep_of
  exact containsD_deffold_mem mlDefaults _ kv h

/-- Every default slot of `prepare_for_ml_model` ends up holding exactly
its fixed value, for any source data: the mapping loop and the systolic
extraction only ever write the keys age, chol, thalach, fbs and trestbps,
so each default key is still missing when the defaults loop reaches it,
and the final fbs binarization does not touch it. -/
theorem buildMl_defaults (data : Dict) (kv : String × PyValue)
    (h : kv ∈ mlDefaults) : lookupD (buildMlInput data) kv.1 = some kv.2 := by
  have hfbs : kv.1 ≠ "fbs" := (by decide : ∀ kv2 ∈ mlDefaults, kv2.1 ≠ "fbs") kv h
  unfold buildMlInput
  rw [lookupD_fbsstep_ne _ _ hfbs]
  apply lookupD_deffold_mem_val mlDefaults _ kv h ?_ (by decide)
  rw [containsD_bpstep_ne _ _ _
    ((by decide : ∀ kv2 ∈ mlDefaults, kv2.1 ≠ "trestbps") kv h)]
  simp only [mlMapping, List.foldl_cons, List.foldl_nil]
  rw [containsD_mapstep_ne _ _ _ _ hfbs]
  rw [containsD_mapstep_ne _ _ _ _
    ((by decide : ∀ kv2 ∈ mlDefaults, kv2.1 ≠ "thalach") kv h)]
  rw [containsD_mapstep_ne _ _ _ _
    ((by decide : ∀ kv2 ∈ mlDefaults, kv2.1 ≠ "chol") kv h)]
  rw [containsD_mapstep_ne _ _ _ _
    ((by decide : ∀ kv2 ∈ mlDefaults, kv2.1 ≠ "age") kv h)]
  rfl

theorem buildMl_thalach (data : Dict) :
    containsD (buildMlInput data) "thalach" = containsD data "heart_rate" := by
  unfold buildMlInput
  simp only [mlMapping, List.foldl_cons, List.foldl_nil]
  rw [containsD_fbsstep_ne _ _ (by decide)]
  rw [containsD_deffold_ne _ _ _ (by decide)]
  rw [containsD_bpstep_ne _ _ _ (by decide)]
  rw [containsD_mapstep_ne _ _ _ _ (by decide)]
  by_cases hr : containsD data "heart_rate" = true
  · rw [hr]
    exact containsD_mapstep_self data _ ("heart_rate", "thalach") hr
  · have hr2 : containsD data "heart_rate" = false := by simpa using hr
    rw [hr2, containsD_mapstep_miss _ _ _ _ hr2]
    rw [containsD_mapstep_ne _ _ _ _ (by decide)]
    rw [containsD_mapstep_ne _ _ _ _ (by decide)]
    rfl

theorem buildMl_fbs_contains (data : Dict) :
    containsD (buildMlInput data) "fbs" = containsD data "glucose" := by
  unfold buildMlInput
  simp only [mlMapping, List.foldl_cons, List.foldl_nil]
  rw [containsD_fbsstep_fbs]
  rw [containsD_deffold_ne _ _ _ (by decide)]
  rw [containsD_bpstep_ne _ _ _ (by decide)]
  by_cases hg : containsD data "glucose" = true
  · rw [hg]
    exact containsD_mapstep_self data _ ("glucose", "fbs") hg
  · have hg2 : containsD data "glucose" = false := by simpa using hg
    rw [hg2, containsD_mapstep_miss _ _ _ _ hg2]
    rw [containsD_mapstep_ne _ _ _ _ (by decide)]
    rw [containsD_mapstep_ne _ _ _ _ (by decide)]
    rw [containsD_mapstep_ne _ _ _ _ (by decide)]
    rfl

theorem mlFbsStep_lookup (ml : Dict) (g : Int)
    (h : lookupD ml "fbs" = some (vInt g)) :
    lookupD (mlFbsStep ml) "fbs" = some (vInt (if 120 < g then 1 else 0)) := by
  simp only [mlFbsStep, h]
  rw [lookupD_insertD_self]
  have hp : pyGt120 (vInt g) = decide (120 < g) := rfl
  simp [hp]

theorem buildMl_fbs_value (data : Dict) (g : Int)
    (hGl : lookupD data "glucose" = some (vInt g)) :
    lookupD (buildMlInput data) "fbs" = some (vInt (if 120 < g then 1 else 0)) := by
  unfold buildMlInput
  refine mlFbsStep_lookup _ g ?_
  rw [lookupD_deffold_ne _ _ _ (by decide)]
  rw [lookupD_bpstep_ne _ _ _ (by decide)]
  simp only [mlMapping, List.foldl_cons, List.foldl_nil]
  have hgc : containsD data "glucose" = true := by simp [containsD, hGl]
  exact lookupD_mapstep_hit data _ ("glucose", "fbs") (vInt g) hgc hGl

/-! ## Claim theorems: ML feature vector (C4, C5) -/

/-- Claim C4 counterexample: a reachable READY_FOR_PREDICTION result with
no heart_rate or glucose yields a feature vector with no `thalach` and no
`fbs` slot — the vector is not always fully populated with all 13 named
slots, because the fixed defaults cover only the other 8 slots. -/
theorem c4_counterexample :
    (validate_and_prepare_prediction
      [("age", vStr "50"), ("cholesterol", vStr "200"),
       ("blood_pressure", vStr "120/80")]).status = "READY_FOR_PREDICTION" ∧
    ∃ m, prepare_for_ml_model (validate_and_prepare_prediction
      [("age", vStr "50"), ("cholesterol", vStr "200"),
       ("blood_pressure", vStr "120/80")]) = some m ∧
      lookupD m "thalach" = none ∧ lookupD m "fbs" = none := by
  refine ⟨by decide,
    buildMlInput (clean_extracted_data
      [("age", vStr "50"), ("cholesterol", vStr "200"),
       ("blood_pressure", vStr "120/80")]),
    by decide, by decide, by decide⟩

/-- Claim C4 as amended: for every READY_FOR_PREDICTION result the
feature vector always contains the slots age, chol and trestbps, and the
8 fixed-default slots hold exactly their fixed values (sex=1, cp=0,
restecg=0, exang=0, oldpeak=1.0, slope=1, ca=0, thal=3); the `thalach`
and `fbs` slots are present exactly when heart_rate / glucose were
extracted — they have no defaults, so partial population does occur when
those optional fields are absent. -/
theorem c4_slots_amended (extracted : Dict)
    (h : (validate_and_prepare_prediction extracted).status = "READY_FOR_PREDICTION") :
    ∃ m, prepare_for_ml_model (validate_and_prepare_prediction extracted) = some m ∧
      containsD m "age" = true ∧ containsD m "chol" = true ∧
      containsD m "trestbps" = true ∧
      lookupD m "sex" = some (vInt 1) ∧ lookupD m "cp" = some (vInt 0) ∧
      lookupD m "restecg" = some (vInt 0) ∧ lookupD m "exang" = some (vInt 0) ∧
      lookupD m "oldpeak" = some (vFloat 1) ∧ lookupD m "slope" = some (vInt 1) ∧
      lookupD m "ca" = some (vInt 0) ∧ lookupD m "thal" = some (vInt 3) ∧
      containsD m "thalach" =
        containsD (validate_and_prepare_prediction extracted).data "heart_rate" ∧
      containsD m "fbs" =
        containsD (validate_and_prepare_prediction extracted).data "glucose" := by
  obtain ⟨hv, hmiss⟩ := validate_ready extracted h
  rw [hv]
  obtain ⟨⟨va, hva, _⟩, ⟨vc, hvc, _⟩, ⟨vb, hvb, _⟩⟩ :=
    missing_nil_contains (clean_extracted_data extracted) hmiss
  obtain ⟨v0, _, hcl⟩ := clean_lookup_mem extracted "blood_pressure" vb hvb
  obtain ⟨a, b, hshape, _⟩ := clean_bp_shape v0 vb hcl
  subst hshape
  refine ⟨buildMlInput (clean_extracted_data extracted), ?_,
    buildMl_contains_age _ (by simp [containsD, hva]),
    buildMl_contains_chol _ (by simp [containsD, hvc]),
    buildMl_contains_trestbps _ a b hvb,
    buildMl_defaults _ ("sex", vInt 1) (by decide),
    buildMl_defaults _ ("cp", vInt 0) (by decide),
    buildMl_defaults _ ("restecg", vInt 0) (by decide),
    buildMl_defaults _ ("exang", vInt 0) (by decide),
    buildMl_defaults _ ("oldpeak", vFloat 1) (by decide),
    buildMl_defaults _ ("slope", vInt 1) (by decide),
    buildMl_defaults _ ("ca", vInt 0) (by decide),
    buildMl_defaults _ ("thal", vInt 3) (by decide),
    buildMl_thalach _, buildMl_fbs_contains _⟩
  unfold prepare_for_ml_model
  rw [if_neg (fun hne => hne rfl)]
  rfl

/-- Witness for C4's amended theorem at a concrete READY input. -/
theorem c4_slots_witness :
    ∃ m, prepare_for_ml_model (validate_and_prepare_prediction
      [("age", vStr "50"), ("cholesterol", vStr "200"),
       ("blood_pressure", vStr "120/80"), ("heart_rate", vStr "72")]) = some m ∧
      containsD m "age" = true ∧ containsD m "chol" = true ∧
      containsD m "trestbps" = true ∧
      lookupD m "sex" = some (vInt 1) ∧ lookupD m "cp" = some (vInt 0) ∧
      lookupD m "restecg" = some (vInt 0) ∧ lookupD m "exang" = some (vInt 0) ∧
      lookupD m "oldpeak" = some (vFloat 1) ∧ lookupD m "slope" = some (vInt 1) ∧
      lookupD m "ca" = some (vInt 0) ∧ lookupD m "thal" = some (vInt 3) ∧
      containsD m "thalach" =
        containsD (validate_and_prepare_prediction
          [("age", vStr "50"), ("cholesterol", vStr "200"),
           ("blood_pressure", vStr "120/80"), ("heart_rate", vStr "72")]).data "heart_rate" ∧
      containsD m "fbs" =
        containsD (validate_and_prepare_prediction
          [("age", vStr "50"), ("cholesterol", vStr "200"),
           ("blood_pressure", vStr "120/80"), ("heart_rate", vStr "72")]).data "glucose" :=
  c4_slots_amended
    [("age", vStr "50"), ("cholesterol", vStr "200"),
     ("blood_pressure", vStr "120/80"), ("heart_rate", vStr "72")] (by decide)

/-- Claim C5: when the validated data contains a glucose value, the final
`fbs` slot is exactly 1 when the raw glucose is strictly greater than 120
and 0 otherwise; the binarization is the last step of
`prepare_for_ml_model`, applied to the raw value previously placed in
`ml_input['fbs']` by the mapping loop. -/
theorem c5_fbs_threshold (v : ValidationOutcome) (g : Int)
    (h1 : v.status = "READY_FOR_PREDICTION")
    (h2 : lookupD v.data "glucose" = some (vInt g)) :
    ∃ m, prepare_for_ml_model v = some m ∧
      lookupD m "fbs" = some (vInt (if 120 < g then 1 else 0)) := by
  refine ⟨buildMlInput v.data, ?_, buildMl_fbs_value v.data g h2⟩
  unfold prepare_for_ml_model
  rw [if_neg (fun hne => hne h1)]

/-- Witness for C5 at a concrete input: glucose 150 collapses to fbs 1. -/
theorem c5_fbs_threshold_witness :
    ∃ m, prepare_for_ml_model (validate_and_prepare_prediction
      [("age", vStr "50"), ("cholesterol", vStr "200"),
       ("blood_pressure", vStr "120/80"), ("glucose", vStr "150")]) = some m ∧
      lookupD m "fbs" = some (vInt 1) := by
  have h := c5_fbs_threshold (validate_and_prepare_prediction
      [("age", vStr "50"), ("cholesterol", vStr "200"),
       ("blood_pressure", vStr "120/80"), ("glucose", vStr "150")]) 150
      (by decide) (by decide)
  simpa using h

/-! ## Claim theorems: orchestrator (C10) -/

theorem lookup_clean_error_dict (e dt p : String) (hp : p ∈ critical_params) :
    lookupD (clean_extracted_data [("error", vStr e), ("document_type", vStr dt)]) p = none := by
  rcases hl : lookupD (clean_extracted_data
      [("error", vStr e), ("document_type", vStr dt)]) p with _ | v
  · rfl
  · exfalso
    obtain ⟨v0, hm, _⟩ := clean_lookup_mem _ _ _ hl
    rcases List.mem_cons.mp hm with h1 | h1
    · injection h1 with ha _
      fin_cases hp <;> exact absurd ha (by decide)
    · rcases List.mem_cons.mp h1 with h2 | h2
      · injection h2 with ha _
        fin_cases hp <;> exact absurd ha (by decide)
      · cases h2

theorem validate_error_dict (e dt : String) :
    validate_and_prepare_prediction [("error", vStr e), ("document_type", vStr dt)] =
      handle_poor_data (clean_extracted_data
        [("error", vStr e), ("document_type", vStr dt)]) := by
  have hmiss : get_missing_critical (clean_extracted_data
      [("error", vStr e), ("document_type", vStr dt)]) = critical_params := by
    unfold get_missing_critical
    apply List.filter_eq_self.mpr
    intro p hp
    rw [lookup_clean_error_dict e dt p hp]
  have hassess : assess_completeness (clean_extracted_data
      [("error", vStr e), ("document_type", vStr dt)]) = "POOR" := by
    simp only [assess_completeness, hmiss]
    decide
  unfold validate_and_prepare_prediction
  rw [if_neg (by rw [hassess]; decide), if_neg (by rw [hassess]; decide),
    if_neg (by rw [hassess]; decide)]

/-- Claim C10: when a parser fails totally and returns an error-key
ExtractionResult (here: the clinic, discharge or fallback parser hit an
OCR exception), `process_any_document` still returns a report with status
"success": the failure surfaces only as the `error` entry inside
extracted_data and a CANNOT_PROCESS validation result, and no prediction
is attempted.  The status "error" report, with the message set and every
other field null, arises exactly from an exception escaping a pipeline
stage into the orchestrator's outer `try/except` (second conjunct). -/
theorem c10_orchestrator (e t : String) (search : SearchOracle)
    (findallBp : List (String × String)) (predict : Dict → Except String Dict)
    (hg : classify_document_type (Except.ok t) ≠ "lab_report") :
    ((process_any_document none (Except.ok t) (Except.error e)
        search findallBp predict).status = "success" ∧
     (∃ d, (process_any_document none (Except.ok t) (Except.error e)
        search findallBp predict).extracted_data = some d ∧ containsD d "error" = true) ∧
     (∃ vr, (process_any_document none (Except.ok t) (Except.error e)
        search findallBp predict).validation_result = some vr ∧
        vr.status = "CANNOT_PROCESS") ∧
     (process_any_document none (Except.ok t) (Except.error e)
        search findallBp predict).prediction_result = none) ∧
    (∀ (msg : String) (clsOcr parserOcr : Except String String),
      process_any_document (some msg) clsOcr parserOcr search findallBp predict =
        { status := "error", message := some msg, document_type := none,
          extracted_data := none, validation_result := none,
          prediction_result := none }) := by
  refine ⟨?_, fun msg o1 o2 => rfl⟩
  have hdisp : ∃ dt, dispatchByGenre (classify_document_type (Except.ok t))
      (Except.error e) search findallBp =
      [("error", vStr e), ("document_type", vStr dt)] := by
    unfold dispatchByGenre
    rw [if_neg hg]
    by_cases h2 : classify_document_type (Except.ok t) = "discharge_summary"
    · rw [if_pos h2]
      exact ⟨"discharge_summary", rfl⟩
    · rw [if_neg h2]
      by_cases h3 : classify_document_type (Except.ok t) = "clinic_notes"
      · rw [if_pos h3]
        exact ⟨"clinic_notes", rfl⟩
      · rw [if_neg h3]
        exact ⟨"general_medical", rfl⟩
  obtain ⟨dt, hdt⟩ := hdisp
  have hst : (handle_poor_data (clean_extracted_data
      [("error", vStr e), ("document_type", vStr dt)])).status = "CANNOT_PROCESS" := rfl
  simp only [process_any_document]
  rw [hdt, validate_error_dict e dt]
  rw [if_neg (fun hcon => by rw [hst] at hcon; exact absurd hcon (by decide))]
  refine ⟨by first | rfl | trivial, ⟨_, rfl, by first | rfl | trivial⟩,
    ⟨_, rfl, hst⟩, by first | rfl | trivial⟩

/-- Witness for C10 at a concrete input: empty transcript (classified
"fallback"), OCR failure in the parser, prediction stub. -/
theorem c10_orchestrator_witness :
    (process_any_document none (Except.ok "") (Except.error "img unreadable")
        (fun _ _ => none) [] (fun _ => Except.error "no model")).status = "success" ∧
    (∃ d, (process_any_document none (Except.ok "") (Except.error "img unreadable")
        (fun _ _ => none) [] (fun _ => Except.error "no model")).extracted_data = some d ∧
        containsD d "error" = true) ∧
    (∃ vr, (process_any_document none (Except.ok "") (Except.error "img unreadable")
        (fun _ _ => none) [] (fun _ => Except.error "no model")).validation_result = some vr ∧
        vr.status = "CANNOT_PROCESS") ∧
    (process_any_document none (Except.ok "") (Except.error "img unreadable")
        (fun _ _ => none) [] (fun _ => Except.error "no model")).prediction_result = none :=
  (c10_orchestrator "img unreadable" "" (fun _ _ => none) []
    (fun _ => Except.error "no model") (by decide)).1

end HeartShield
